import Mathlib

/-!
Shallow embedding of the VRM0 legacy-data migration engine
(`io_scene_vrm/editor/vrm0/migration.py`) of the VRM addon for Blender,
together with proofs about its behaviour.

JSON values decoded by Python's `json.loads` are modelled by an inductive
`Json` type whose objects are ordered association lists (the source decodes
with `object_pairs_hook=collections.OrderedDict`, preserving key order).
Python numbers are modelled by `Rat`.  A Python `bool` is a subclass of
`int`, so `isinstance(x, (int, float))` also accepts booleans; the helper
`Json.asNum?` reflects that.
-/

/-- A decoded JSON value as produced by Python's `json.loads` with an
ordered-pairs object hook.  Objects keep their textual key order. -/
inductive Json where
  | null : Json
  | bool (b : Bool) : Json
  | num (q : Rat) : Json
  | str (s : String) : Json
  | arr (xs : List Json) : Json
  | obj (fields : List (String × Json)) : Json
deriving Repr, Inhabited

/-- Constructor index, used to discriminate JSON values built from
different constructors. -/
def Json.ctorIdx : Json → Nat
  | .null => 0
  | .bool _ => 1
  | .num _ => 2
  | .str _ => 3
  | .arr _ => 4
  | .obj _ => 5

mutual

/-- Decidable equality on decoded JSON values (the automatic derivation
does not handle the nested lists). -/
def Json.decEq : (a b : Json) → Decidable (a = b)
  | .null, .null => isTrue rfl
  | .bool a, .bool b =>
    if h : a = b then isTrue (by rw [h])
    else isFalse (fun hh => h (by injection hh))
  | .num a, .num b =>
    if h : a = b then isTrue (by rw [h])
    else isFalse (fun hh => h (by injection hh))
  | .str a, .str b =>
    if h : a = b then isTrue (by rw [h])
    else isFalse (fun hh => h (by injection hh))
  | .arr xs, .arr ys =>
    match Json.decEqList xs ys with
    | isTrue h => isTrue (by rw [h])
    | isFalse h => isFalse (fun hh => h (by injection hh))
  | .obj xs, .obj ys =>
    match Json.decEqFields xs ys with
    | isTrue h => isTrue (by rw [h])
    | isFalse h => isFalse (fun hh => h (by injection hh))
  | .null, .bool _ => isFalse (fun h => Json.noConfusion h)
  | .null, .num _ => isFalse (fun h => Json.noConfusion h)
  | .null, .str _ => isFalse (fun h => Json.noConfusion h)
  | .null, .arr _ => isFalse (fun h => Json.noConfusion h)
  | .null, .obj _ => isFalse (fun h => Json.noConfusion h)
  | .bool _, .null => isFalse (fun h => Json.noConfusion h)
  | .bool _, .num _ => isFalse (fun h => Json.noConfusion h)
  | .bool _, .str _ => isFalse (fun h => Json.noConfusion h)
  | .bool _, .arr _ => isFalse (fun h => Json.noConfusion h)
  | .bool _, .obj _ => isFalse (fun h => Json.noConfusion h)
  | .num _, .null => isFalse (fun h => Json.noConfusion h)
  | .num _, .bool _ => isFalse (fun h => Json.noConfusion h)
  | .num _, .str _ => isFalse (fun h => Json.noConfusion h)
  | .num _, .arr _ => isFalse (fun h => Json.noConfusion h)
  | .num _, .obj _ => isFalse (fun h => Json.noConfusion h)
  | .str _, .null => isFalse (fun h => Json.noConfusion h)
  | .str _, .bool _ => isFalse (fun h => Json.noConfusion h)
  | .str _, .num _ => isFalse (fun h => Json.noConfusion h)
  | .str _, .arr _ => isFalse (fun h => Json.noConfusion h)
  | .str _, .obj _ => isFalse (fun h => Json.noConfusion h)
  | .arr _, .null => isFalse (fun h => Json.noConfusion h)
  | .arr _, .bool _ => isFalse (fun h => Json.noConfusion h)
  | .arr _, .num _ => isFalse (fun h => Json.noConfusion h)
  | .arr _, .str _ => isFalse (fun h => Json.noConfusion h)
  | .arr _, .obj _ => isFalse (fun h => Json.noConfusion h)
  | .obj _, .null => isFalse (fun h => Json.noConfusion h)
  | .obj _, .bool _ => isFalse (fun h => Json.noConfusion h)
  | .obj _, .num _ => isFalse (fun h => Json.noConfusion h)
  | .obj _, .str _ => isFalse (fun h => Json.noConfusion h)
  | .obj _, .arr _ => isFalse (fun h => Json.noConfusion h)

/-- Decidable equality on lists of decoded JSON values. -/
def Json.decEqList : (xs ys : List Json) → Decidable (xs = ys)
  | [], [] => isTrue rfl
  | [], _ :: _ => isFalse (fun h => List.noConfusion h)
  | _ :: _, [] => isFalse (fun h => List.noConfusion h)
  | x :: xs, y :: ys =>
    match Json.decEq x y with
    | isFalse h => isFalse (fun hh => h (by injection hh))
    | isTrue h1 =>
      match Json.decEqList xs ys with
      | isTrue h2 => isTrue (by rw [h1, h2])
      | isFalse h => isFalse (fun hh => h (by injection hh))

/-- Decidable equality on JSON object field lists. -/
def Json.decEqFields :
    (xs ys : List (String × Json)) → Decidable (xs = ys)
  | [], [] => isTrue rfl
  | [], _ :: _ => isFalse (fun h => List.noConfusion h)
  | _ :: _, [] => isFalse (fun h => List.noConfusion h)
  | (k, v) :: xs, (l, w) :: ys =>
    if hk : k = l then
      match Json.decEq v w with
      | isFalse h =>
        isFalse (fun hh => by
          injection hh with hh1 hh2
          exact h (congrArg Prod.snd hh1))
      | isTrue h1 =>
        match Json.decEqFields xs ys with
        | isTrue h2 => isTrue (by rw [hk, h1, h2])
        | isFalse h => isFalse (fun hh => h (by injection hh))
    else
      isFalse (fun hh => by
        injection hh with hh1 hh2
        exact hk (congrArg Prod.fst hh1))

end

instance : DecidableEq Json := Json.decEq

namespace Json

/-- `dict.get key` on a decoded JSON object (objects built by the parser
have distinct keys, the first lookup is the Python value). -/
def get (j : Json) (key : String) : Option Json :=
  match j with
  | .obj fields => fields.lookup key
  | _ => none

/-- `isinstance(x, str)` on a decoded JSON value. -/
def asStr? : Json → Option String
  | .str s => some s
  | _ => none

/-- `isinstance(x, (int, float))` on a decoded JSON value, together with
the numeric value used when it is assigned to a Blender float/int
property.  Python `bool` is a subclass of `int`, so `True`/`False` pass
this check and read as `1`/`0`. -/
def asNum? : Json → Option Rat
  | .num q => some q
  | .bool b => some (if b then 1 else 0)
  | _ => none

/-- `isinstance(x, bool)` on a decoded JSON value. -/
def asBool? : Json → Option Bool
  | .bool b => some b
  | _ => none

/-- `isinstance(x, dict)` on a decoded JSON value. -/
def asObj? : Json → Option (List (String × Json))
  | .obj fields => some fields
  | _ => none

/-- `isinstance(x, collections.abc.Iterable)` on a decoded JSON value,
together with the elements Python iteration yields: a list yields its
elements, a string yields its one-character substrings, a dict yields its
keys.  `None`, booleans and numbers are not iterable. -/
def iterElems : Json → Option (List Json)
  | .arr xs => some xs
  | .str s => some (s.data.map (fun c => Json.str (String.singleton c)))
  | .obj fields => some (fields.map (fun p => Json.str p.1))
  | _ => none

end Json

/-! ### A model of `json.loads`

A fuel-indexed recursive-descent JSON parser.  It is only ever used
executably (on concrete strings) or opaquely (threaded through
`Option.bind`), so the fuel bound just needs to be generous. -/

def jsonWhitespaceChar (c : Char) : Bool :=
  c = ' ' || c = '\t' || c = '\n' || c = '\r'

def skipWs (cs : List Char) : List Char :=
  cs.dropWhile jsonWhitespaceChar

def braceOpen : Char := Char.ofNat 123

def braceClose : Char := Char.ofNat 125

def hexVal? (c : Char) : Option Nat :=
  if '0' ≤ c ∧ c ≤ '9' then some (c.toNat - '0'.toNat)
  else if 'a' ≤ c ∧ c ≤ 'f' then some (c.toNat - 'a'.toNat + 10)
  else if 'A' ≤ c ∧ c ≤ 'F' then some (c.toNat - 'A'.toNat + 10)
  else none

/-- One escape character after a backslash in a JSON string literal. -/
def unescapeChar? (c : Char) : Option Char :=
  if c = '"' then some '"'
  else if c = '\\' then some '\\'
  else if c = '/' then some '/'
  else if c = 'b' then some (Char.ofNat 8)
  else if c = 'f' then some (Char.ofNat 12)
  else if c = 'n' then some '\n'
  else if c = 'r' then some '\r'
  else if c = 't' then some '\t'
  else none

/-- Parse the remainder of a JSON string literal (the opening quote is
already consumed), returning the string and the rest of the input. -/
def parseStrBody : Nat → List Char → List Char → Option (String × List Char)
  | 0, _, _ => none
  | _ + 1, _acc, [] => none
  | fuel + 1, acc, c :: rest =>
    if c = '"' then
      some (String.mk acc.reverse, rest)
    else if c = '\\' then
      match rest with
      | [] => none
      | e :: rest' =>
        if e = 'u' then
          match rest' with
          | a :: b :: c2 :: d :: rest'' =>
            match hexVal? a, hexVal? b, hexVal? c2, hexVal? d with
            | some ha, some hb, some hc, some hd =>
              parseStrBody fuel
                (Char.ofNat (((ha * 16 + hb) * 16 + hc) * 16 + hd) :: acc) rest''
            | _, _, _, _ => none
          | _ => none
        else
          match unescapeChar? e with
          | some u => parseStrBody fuel (u :: acc) rest'
          | none => none
    else
      parseStrBody fuel (c :: acc) rest

def isDigitChar (c : Char) : Bool := '0' ≤ c ∧ c ≤ '9'

def digitsToNat (ds : List Char) : Nat :=
  ds.foldl (fun acc c => acc * 10 + (c.toNat - '0'.toNat)) 0

/-- Parse an optional exponent part after the mantissa of a JSON number
and deliver the finished value.  The rational is assembled with a single
`mkRat` over natural-number arithmetic (the generic `Rat` operations are
irreducible and would block kernel evaluation). -/
def parseNumExp (neg : Bool) (intDigits fracDigits : List Char)
    (cs : List Char) : Option (Rat × List Char) :=
  let k := fracDigits.length
  let m : Nat := digitsToNat intDigits * 10 ^ k + digitsToNat fracDigits
  let signedNum : Nat → Int := fun n =>
    if neg then -(Int.ofNat n) else Int.ofNat n
  match cs with
  | c :: rest =>
    if c = 'e' ∨ c = 'E' then
      let (expNeg, rest') :=
        match rest with
        | e :: r => if e = '-' then (true, r)
          else if e = '+' then (false, r) else (false, rest)
        | [] => (false, rest)
      let expDigits := rest'.takeWhile isDigitChar
      let cs4 := rest'.dropWhile isDigitChar
      if expDigits.isEmpty then none
      else if expNeg then
        some (mkRat (signedNum m) (10 ^ k * 10 ^ digitsToNat expDigits), cs4)
      else
        some (mkRat (signedNum (m * 10 ^ digitsToNat expDigits)) (10 ^ k), cs4)
    else some (mkRat (signedNum m) (10 ^ k), cs)
  | [] => some (mkRat (signedNum m) (10 ^ k), [])

/-- Parse a JSON number. -/
def parseNum (cs : List Char) : Option (Rat × List Char) :=
  let (neg, cs1) :=
    match cs with
    | c :: rest => if c = '-' then (true, rest) else (false, cs)
    | [] => (false, cs)
  let intDigits := cs1.takeWhile isDigitChar
  let cs2 := cs1.dropWhile isDigitChar
  if intDigits.isEmpty then none
  else
    match cs2 with
    | '.' :: rest =>
      let fracDigits := rest.takeWhile isDigitChar
      if fracDigits.isEmpty then none
      else parseNumExp neg intDigits fracDigits (rest.dropWhile isDigitChar)
    | _ => parseNumExp neg intDigits [] cs2

/-- Insert a key/value pair the way `collections.OrderedDict` does when
built from a pair list: an existing key keeps its position and gets the
new value, a new key is appended. -/
def insertPair (fields : List (String × Json)) (k : String) (v : Json) :
    List (String × Json) :=
  match fields with
  | [] => [(k, v)]
  | (k', v') :: rest =>
    if k' = k then (k', v) :: rest else (k', v') :: insertPair rest k v

mutual

/-- Parse one JSON value from the input (leading whitespace allowed). -/
def parseVal : Nat → List Char → Option (Json × List Char)
  | 0, _ => none
  | fuel + 1, cs =>
    match skipWs cs with
    | [] => none
    | c :: rest =>
      if c = '"' then
        match parseStrBody (rest.length + 1) [] rest with
        | some (s, rest') => some (Json.str s, rest')
        | none => none
      else if c = '[' then
        parseArrElems fuel true rest []
      else if c = braceOpen then
        parseObjElems fuel true rest []
      else if c = 't' then
        match rest with
        | 'r' :: 'u' :: 'e' :: rest' => some (Json.bool true, rest')
        | _ => none
      else if c = 'f' then
        match rest with
        | 'a' :: 'l' :: 's' :: 'e' :: rest' => some (Json.bool false, rest')
        | _ => none
      else if c = 'n' then
        match rest with
        | 'u' :: 'l' :: 'l' :: rest' => some (Json.null, rest')
        | _ => none
      else
        match parseNum (c :: rest) with
        | some (q, rest') => some (Json.num q, rest')
        | none => none

/-- Parse the elements of a JSON array after the opening bracket. -/
def parseArrElems : Nat → Bool → List Char → List Json →
    Option (Json × List Char)
  | 0, _, _, _ => none
  | fuel + 1, isFirst, cs, acc =>
    match skipWs cs with
    | [] => none
    | c :: rest =>
      if c = ']' then
        if isFirst ∨ ¬acc.isEmpty then some (Json.arr acc.reverse, rest)
        else none
      else
        let cs' := if isFirst then c :: rest
          else if c = ',' then rest else []
        if ¬isFirst ∧ c ≠ ',' then none
        else
          match parseVal fuel cs' with
          | some (v, rest') => parseArrElems fuel false rest' (v :: acc)
          | none => none

/-- Parse the members of a JSON object after the opening brace, building
the ordered field list the way `OrderedDict` would. -/
def parseObjElems : Nat → Bool → List Char → List (String × Json) →
    Option (Json × List Char)
  | 0, _, _, _ => none
  | fuel + 1, isFirst, cs, acc =>
    match skipWs cs with
    | [] => none
    | c :: rest =>
      if c = braceClose then
        if isFirst ∨ ¬acc.isEmpty then some (Json.obj acc, rest)
        else none
      else
        let csAfterComma := if isFirst then c :: rest
          else if c = ',' then rest else []
        if ¬isFirst ∧ c ≠ ',' then none
        else
          match skipWs csAfterComma with
          | [] => none
          | q :: rest' =>
            if q ≠ '"' then none
            else
              match parseStrBody (rest'.length + 1) [] rest' with
              | none => none
              | some (key, rest'') =>
                match skipWs rest'' with
                | ':' :: rest''' =>
                  match parseVal fuel rest''' with
                  | some (v, rest4) =>
                    parseObjElems fuel false rest4 (insertPair acc key v)
                  | none => none
                | _ => none

end

/-- A model of Python's `json.loads` applied to a whole string: one JSON
value, possibly surrounded by whitespace; anything else is a decode
error (`none`). -/
def parseJson (s : String) : Option Json :=
  match parseVal (2 * s.length + 8) s.data with
  | some (j, rest) => if (skipWs rest).isEmpty then some j else none
  | none => none

example : parseJson "3" = some (Json.num 3) := by decide
example : parseJson " [1, true, null] " =
    some (Json.arr [Json.num 1, Json.bool true, Json.null]) := by decide
example : parseJson "\x7b\"b\": 1, \"a\": 2\x7d" =
    some (Json.obj [("b", Json.num 1), ("a", Json.num 2)]) := by decide
example : parseJson "\x7b\"a\": 1" = none := by decide
example : parseJson "-1.5e1" = some (Json.num (-15)) := by decide
example : parseJson "\"a\\u0041b\"" = some (Json.str "aAb") := by decide
example : parseJson "nope" = none := by decide

/-! ### The Blender data stores and the rig

The host's entity stores are modelled as queryable snapshots: named text
datablocks, meshes (with their shape-key block names), materials and
images.  A rig (armature object) carries object-level custom properties
(`armature.get`), armature-data custom properties (`armature.data.get`),
a bone-name set, child objects and a data name.  A custom-property value
is either a pointer to a text datablock or a plain (JSON-like) value. -/

/-- A `bpy.types.Text` datablock: named, with a list of line bodies. -/
structure TextBlock where
  lines : List String
deriving Repr, DecidableEq

/-- A custom-property value on an ID: either a pointer to a text
datablock or a plain value (int/float/string/array/dict), the latter
modelled by `Json`. -/
inductive AttrValue where
  | textRef (text : TextBlock) : AttrValue
  | plain (j : Json) : AttrValue
deriving Repr, DecidableEq

/-- A child object of the armature, with the attributes the collider
scan inspects. -/
structure ChildObject where
  type : String
  empty_display_type : String
  parent_type : String
  parent_bone : String
  name : String
deriving Repr, DecidableEq

/-- The rig: custom properties, bone names, children. -/
structure Armature where
  props : List (String × AttrValue)
  data_props : List (String × AttrValue)
  bones : List String
  children : List ChildObject
  data_name : String
deriving Repr, DecidableEq

/-- The global entity stores (`bpy.data`): texts by name, meshes by name
with their shape-key block names, material names, image names. -/
structure BlendData where
  texts : List (String × TextBlock)
  meshes : List (String × List String)
  materials : List String
  images : List String
deriving Repr, DecidableEq

/-- `read_textblock_json(armature, armature_key)`: fetch the custom
property, accept it if it is a `Text` datablock or the name of one,
join the line bodies and decode them as JSON; every failure (missing
property, wrong type, unknown text name, malformed JSON) yields `None`. -/
def read_textblock_json (bd : BlendData) (armature : Armature)
    (armature_key : String) : Option Json :=
  match armature.props.lookup armature_key with
  | some (.textRef text) => parseJson (String.join text.lines)
  | some (.plain (Json.str text_key)) =>
    match bd.texts.lookup text_key with
    | some text => parseJson (String.join text.lines)
    | none => none
  | some (.plain _) => none
  | none => none

/-! ### The normalized VRM0 document

The records populated by the migrators, modelled as a plain ownership
tree.  Host property metadata is stripped; a freshly added record is
modelled with empty strings / zeroes / empty lists.  Name-based weak
references (`BoneReference` etc.) hold only the name string. -/

/-- A name-based weak reference to a bone (a property group exposing
`value`). -/
structure BoneRef where
  value : String
deriving Repr, DecidableEq

/-- The `meta` record (all string fields plus an image reference by
name). -/
structure Meta where
  allowed_user_name : String
  author : String
  commercial_ussage_name : String
  contact_information : String
  license_name : String
  other_license_url : String
  other_permission_url : String
  reference : String
  sexual_ussage_name : String
  title : String
  version : String
  violent_ussage_name : String
  texture : String
deriving Repr, DecidableEq

/-- One role entry of the humanoid record: the role tag (`bone`) and the
assigned bone reference (`node`). -/
structure HumanBone where
  bone : String
  node : BoneRef
deriving Repr, DecidableEq

/-- The humanoid record: role entries, shaping parameters, and the
"last known bone names" structural cache. -/
structure Humanoid where
  human_bones : List HumanBone
  arm_stretch : Rat
  leg_stretch : Rat
  upper_arm_twist : Rat
  lower_arm_twist : Rat
  upper_leg_twist : Rat
  lower_leg_twist : Rat
  feet_spacing : Rat
  has_translation_dof : Bool
  last_bone_names : List String
deriving Repr, DecidableEq

/-- A first-person mesh annotation entry: a mesh reference by name and
the visibility flag. -/
structure MeshAnnotationRec where
  mesh : String
  first_person_flag : String
deriving Repr, DecidableEq

/-- One look-at curve definition. -/
structure LookAt where
  curve : List Rat
  x_range : Rat
  y_range : Rat
deriving Repr, DecidableEq

/-- The first-person record. -/
structure FirstPerson where
  first_person_bone : BoneRef
  first_person_bone_offset : Rat × Rat × Rat
  mesh_annotations : List MeshAnnotationRec
  look_at_type_name : String
  look_at_horizontal_inner : LookAt
  look_at_horizontal_outer : LookAt
  look_at_vertical_down : LookAt
  look_at_vertical_up : LookAt
deriving Repr, DecidableEq

/-- A blend-shape bind: mesh reference, shape-key name, weight. -/
structure MorphBind where
  mesh : String
  index : String
  weight : Rat
deriving Repr, DecidableEq

/-- A material-value bind: material reference, property name, numeric
vector. -/
structure MaterialValue where
  material : String
  property_name : String
  target_value : List Rat
deriving Repr, DecidableEq

/-- A blend-shape (expression) group.  The source assigns `name` and
`presetName` without any type check, so these two fields hold whatever
decoded value the legacy dictionary carried. -/
structure BlendShapeGroup where
  name : Json
  preset_name : Json
  binds : List MorphBind
  material_values : List MaterialValue
  is_binary : Bool
deriving Repr, DecidableEq

/-- A collider record: wraps a scene marker object (by name). -/
structure Collider where
  blender_object : String
deriving Repr, DecidableEq

/-- A collider group: generated UUID, owning bone reference, collider
list, and the collection key `name` (the generated identifier by which
bone groups reference the group, re-derived by `refresh`). -/
structure ColliderGroup where
  uuid : String
  node : BoneRef
  colliders : List Collider
  name : String
deriving Repr, DecidableEq

/-- A spring-bone group. -/
structure BoneGroup where
  comment : String
  stiffiness : Rat
  gravity_power : Rat
  gravity_dir : Rat × Rat × Rat
  drag_force : Rat
  center : BoneRef
  hit_radius : Rat
  bones : List BoneRef
  collider_groups : List BoneRef
deriving Repr, DecidableEq

/-- The secondary-animation (spring-bone) record. -/
structure SecondaryAnimation where
  collider_groups : List ColliderGroup
  bone_groups : List BoneGroup
deriving Repr, DecidableEq

/-- The normalized VRM0 document owned by the rig
(`blend_shape_master.blend_shape_groups` is flattened into a single
field). -/
structure Vrm0Doc where
  meta : Meta
  humanoid : Humanoid
  first_person : FirstPerson
  blend_shape_groups : List BlendShapeGroup
  secondary_animation : SecondaryAnimation
deriving Repr, DecidableEq

/-- The armature extension root: the stored addon version triple and the
VRM0 document. -/
structure Extension where
  addon_version : Int × Int × Int
  vrm0 : Vrm0Doc
deriving Repr, DecidableEq

/-- Python tuple comparison `tuple(ext.addon_version) >= (2, 0, 1)`
(lexicographic over the int triple). -/
def versionAtLeast (v w : Int × Int × Int) : Bool :=
  if v.1 ≠ w.1 then decide (v.1 > w.1)
  else if v.2.1 ≠ w.2.1 then decide (v.2.1 > w.2.1)
  else decide (v.2.2 ≥ w.2.2)

/-! ### Helpers that live outside the sampled sources

`common/convert.py`, `common/human_bone.py` and the property-group
`refresh` / fixup / cache entry points are repository code that is not
among the sampled sources; they are modelled from the spec. -/

/-- Modelled from the spec: `common.convert.vrm_json_vector3_to_tuple` is
not among the sampled sources.  A "3-component legacy vector" is a JSON
mapping with numeric `x`, `y`, `z` entries; anything else is absent. -/
def vrm_json_vector3_to_tuple (j : Option Json) : Option (Rat × Rat × Rat) :=
  match j with
  | some d =>
    match (d.get "x").bind Json.asNum?, (d.get "y").bind Json.asNum?,
        (d.get "z").bind Json.asNum? with
    | some x, some y, some z => some (x, y, z)
    | _, _, _ => none
  | none => none

/-- Modelled from the spec: `common.convert.vrm_json_curve_to_list` is not
among the sampled sources.  A look-at curve is an ordered list of control
values; an iterable input yields its numeric elements (non-numbers as 0),
anything else is absent. -/
def vrm_json_curve_to_list (j : Option Json) : Option (List Rat) :=
  match j.bind Json.iterElems with
  | some vs => some (vs.map (fun v => (Json.asNum? v).getD 0))
  | none => none

/-- Modelled from the spec: `HumanBoneSpecifications.all_names` is not
among the sampled sources.  The closed, externally defined, ordered set of
human bone roles of the VRM 0.x specification. -/
def allHumanBoneNames : List String :=
  ["hips", "leftUpperLeg", "rightUpperLeg", "leftLowerLeg", "rightLowerLeg",
   "leftFoot", "rightFoot", "spine", "chest", "neck", "head",
   "leftShoulder", "rightShoulder", "leftUpperArm", "rightUpperArm",
   "leftLowerArm", "rightLowerArm", "leftHand", "rightHand",
   "leftToes", "rightToes", "leftEye", "rightEye", "jaw",
   "leftThumbProximal", "leftThumbIntermediate", "leftThumbDistal",
   "leftIndexProximal", "leftIndexIntermediate", "leftIndexDistal",
   "leftMiddleProximal", "leftMiddleIntermediate", "leftMiddleDistal",
   "leftRingProximal", "leftRingIntermediate", "leftRingDistal",
   "leftLittleProximal", "leftLittleIntermediate", "leftLittleDistal",
   "rightThumbProximal", "rightThumbIntermediate", "rightThumbDistal",
   "rightIndexProximal", "rightIndexIntermediate", "rightIndexDistal",
   "rightMiddleProximal", "rightMiddleIntermediate", "rightMiddleDistal",
   "rightRingProximal", "rightRingIntermediate", "rightRingDistal",
   "rightLittleProximal", "rightLittleIntermediate", "rightLittleDistal",
   "upperChest"]

/-- Modelled from the spec: `uuid.uuid4().hex` generates a fresh unique
identifier; modelled as a deterministic fresh-name supply indexed by a
counter threaded through the migration. -/
def mkUuid (n : Nat) : String := "uuid-" ++ toString n

/-- Modelled from the spec:
`Vrm0SecondaryAnimationColliderGroupPropertyGroup.refresh` is not among
the sampled sources.  Per the spec it recomputes the record's derived
state against the current rig — the collection key `name` (the generated
identifier by which bone groups reference the group) is re-derived from
the generated UUID — idempotently, failing silently (leaving cached state
stale) when the referenced bone no longer exists on the rig. -/
def colliderGroupRefresh (armature : Armature) (cg : ColliderGroup) :
    ColliderGroup :=
  if armature.bones.contains cg.node.value then { cg with name := cg.uuid }
  else cg

/-- Modelled from the spec:
`Vrm0SecondaryAnimationGroupPropertyGroup.refresh` is not among the
sampled sources.  Per the spec it recomputes cached derived geometry
(idempotent, silent on dangling bone references); no cached geometry
beyond the collider-group identifier cache is modelled, so it is the
identity on the modelled state. -/
def boneGroupRefresh (_armature : Armature) (bg : BoneGroup) : BoneGroup :=
  bg

/-- Modelled from the spec: `Vrm0HumanoidPropertyGroup.fixup_human_bones`
is not among the sampled sources.  Per the spec the humanoid record maps
the closed role set to bone references, at most one entry per role; the
fixup appends a default entry for every specification role that has no
entry yet. -/
def fixup_human_bones (humanoid : Humanoid) : Humanoid :=
  let missingRoles := allHumanBoneNames.filter (fun n =>
    humanoid.human_bones.all (fun hb => hb.bone ≠ n))
  { humanoid with human_bones :=
      humanoid.human_bones ++ missingRoles.map (fun n => ⟨n, ⟨""⟩⟩) }

/-- Modelled from the spec:
`Vrm0HumanoidPropertyGroup.check_last_bone_names_and_update` is not among
the sampled sources.  Per the spec the unconditional cleanup pass
re-derives the "last known bone names" structural cache from the live
rig. -/
def check_last_bone_names_and_update (armature : Armature)
    (humanoid : Humanoid) : Humanoid :=
  { humanoid with last_bone_names := armature.bones }

/-! ### The field migrators (`migration.py` lines 34–369) -/

/-- `migrate_vrm0_meta`: copy each legacy string custom property onto the
meta record when it is a string; resolve `texture` against the image
store. -/
def migrate_vrm0_meta (meta : Meta) (armature : Armature) (bd : BlendData) :
    Meta :=
  let getStr : String → Option String := fun key =>
    match armature.props.lookup key with
    | some (.plain (Json.str s)) => some s
    | _ => none
  let meta := match getStr "allowedUserName" with
    | some v => { meta with allowed_user_name := v } | none => meta
  let meta := match getStr "author" with
    | some v => { meta with author := v } | none => meta
  let meta := match getStr "commercialUssageName" with
    | some v => { meta with commercial_ussage_name := v } | none => meta
  let meta := match getStr "contactInformation" with
    | some v => { meta with contact_information := v } | none => meta
  let meta := match getStr "licenseName" with
    | some v => { meta with license_name := v } | none => meta
  let meta := match getStr "otherLicenseUrl" with
    | some v => { meta with other_license_url := v } | none => meta
  let meta := match getStr "otherPermissionUrl" with
    | some v => { meta with other_permission_url := v } | none => meta
  let meta := match getStr "reference" with
    | some v => { meta with reference := v } | none => meta
  let meta := match getStr "sexualUssageName" with
    | some v => { meta with sexual_ussage_name := v } | none => meta
  let meta := match getStr "title" with
    | some v => { meta with title := v } | none => meta
  let meta := match getStr "version" with
    | some v => { meta with version := v } | none => meta
  let meta := match getStr "violentUssageName" with
    | some v => { meta with violent_ussage_name := v } | none => meta
  let meta := match getStr "texture" with
    | some v => if bd.images.contains v then { meta with texture := v }
      else meta
    | none => meta
  meta

/-- The `armStretch` step of the humanoid migrator. -/
def humApplyArmStretch (d : Json) (h : Humanoid) : Humanoid :=
  match (d.get "armStretch").bind Json.asNum? with
  | some v => { h with arm_stretch := v } | none => h

/-- The `legStretch` step of the humanoid migrator. -/
def humApplyLegStretch (d : Json) (h : Humanoid) : Humanoid :=
  match (d.get "legStretch").bind Json.asNum? with
  | some v => { h with leg_stretch := v } | none => h

/-- The `upperArmTwist` step of the humanoid migrator. -/
def humApplyUpperArmTwist (d : Json) (h : Humanoid) : Humanoid :=
  match (d.get "upperArmTwist").bind Json.asNum? with
  | some v => { h with upper_arm_twist := v } | none => h

/-- The `lowerArmTwist` step of the humanoid migrator. -/
def humApplyLowerArmTwist (d : Json) (h : Humanoid) : Humanoid :=
  match (d.get "lowerArmTwist").bind Json.asNum? with
  | some v => { h with lower_arm_twist := v } | none => h

/-- The `upperLegTwist` step of the humanoid migrator. -/
def humApplyUpperLegTwist (d : Json) (h : Humanoid) : Humanoid :=
  match (d.get "upperLegTwist").bind Json.asNum? with
  | some v => { h with upper_leg_twist := v } | none => h

/-- The `lowerLegTwist` step of the humanoid migrator. -/
def humApplyLowerLegTwist (d : Json) (h : Humanoid) : Humanoid :=
  match (d.get "lowerLegTwist").bind Json.asNum? with
  | some v => { h with lower_leg_twist := v } | none => h

/-- The `feetSpacing` step of the humanoid migrator. -/
def humApplyFeetSpacing (d : Json) (h : Humanoid) : Humanoid :=
  match (d.get "feetSpacing").bind Json.asNum? with
  | some v => { h with feet_spacing := v } | none => h

/-- The `hasTranslationDoF` step of the humanoid migrator. -/
def humApplyHasTranslationDof (d : Json) (h : Humanoid) : Humanoid :=
  match (d.get "hasTranslationDoF").bind Json.asBool? with
  | some v => { h with has_translation_dof := v } | none => h

/-- `migrate_vrm0_humanoid`: no-op unless the input is a dict; each
shaping parameter is assigned only when its runtime type passes the
`isinstance` guard of the source, in source order. -/
def migrate_vrm0_humanoid (humanoid : Humanoid) (humanoid_dict : Option Json) :
    Humanoid :=
  match humanoid_dict with
  | some (Json.obj fields) =>
    let d := Json.obj fields
    humApplyHasTranslationDof d (humApplyFeetSpacing d
      (humApplyLowerLegTwist d (humApplyUpperLegTwist d
        (humApplyLowerArmTwist d (humApplyUpperArmTwist d
          (humApplyLegStretch d (humApplyArmStretch d humanoid)))))))
  | _ => humanoid

/-- Each humanoid step is the corresponding `Option.getD` record
update. -/
theorem humApply_eq_getD (d : Json) (h : Humanoid) :
    humApplyArmStretch d h =
      { h with arm_stretch :=
          (((d.get "armStretch").bind Json.asNum?).getD h.arm_stretch) }
    ∧ humApplyLegStretch d h =
      { h with leg_stretch :=
          (((d.get "legStretch").bind Json.asNum?).getD h.leg_stretch) }
    ∧ humApplyUpperArmTwist d h =
      { h with upper_arm_twist :=
          (((d.get "upperArmTwist").bind Json.asNum?).getD h.upper_arm_twist) }
    ∧ humApplyLowerArmTwist d h =
      { h with lower_arm_twist :=
          (((d.get "lowerArmTwist").bind Json.asNum?).getD h.lower_arm_twist) }
    ∧ humApplyUpperLegTwist d h =
      { h with upper_leg_twist :=
          (((d.get "upperLegTwist").bind Json.asNum?).getD h.upper_leg_twist) }
    ∧ humApplyLowerLegTwist d h =
      { h with lower_leg_twist :=
          (((d.get "lowerLegTwist").bind Json.asNum?).getD h.lower_leg_twist) }
    ∧ humApplyFeetSpacing d h =
      { h with feet_spacing :=
          (((d.get "feetSpacing").bind Json.asNum?).getD h.feet_spacing) }
    ∧ humApplyHasTranslationDof d h =
      { h with has_translation_dof :=
          (((d.get "hasTranslationDoF").bind
            Json.asBool?).getD h.has_translation_dof) } := by
  refine ⟨?_, ?_, ?_, ?_, ?_, ?_, ?_, ?_⟩
  · cases hx : (d.get "armStretch").bind Json.asNum? <;>
      unfold humApplyArmStretch <;> rw [hx] <;> simp
  · cases hx : (d.get "legStretch").bind Json.asNum? <;>
      unfold humApplyLegStretch <;> rw [hx] <;> simp
  · cases hx : (d.get "upperArmTwist").bind Json.asNum? <;>
      unfold humApplyUpperArmTwist <;> rw [hx] <;> simp
  · cases hx : (d.get "lowerArmTwist").bind Json.asNum? <;>
      unfold humApplyLowerArmTwist <;> rw [hx] <;> simp
  · cases hx : (d.get "upperLegTwist").bind Json.asNum? <;>
      unfold humApplyUpperLegTwist <;> rw [hx] <;> simp
  · cases hx : (d.get "lowerLegTwist").bind Json.asNum? <;>
      unfold humApplyLowerLegTwist <;> rw [hx] <;> simp
  · cases hx : (d.get "feetSpacing").bind Json.asNum? <;>
      unfold humApplyFeetSpacing <;> rw [hx] <;> simp
  · cases hx : (d.get "hasTranslationDoF").bind Json.asBool? <;>
      unfold humApplyHasTranslationDof <;> rw [hx] <;> simp

/-- Full characterization of the humanoid migrator on a dict input: each
field takes the guarded legacy value when present and valid, its previous
value otherwise. -/
theorem migrate_vrm0_humanoid_char (humanoid : Humanoid)
    (fields : List (String × Json)) :
    migrate_vrm0_humanoid humanoid (some (Json.obj fields)) =
      { humanoid with
        arm_stretch := (((Json.obj fields).get "armStretch").bind
          Json.asNum?).getD humanoid.arm_stretch,
        leg_stretch := (((Json.obj fields).get "legStretch").bind
          Json.asNum?).getD humanoid.leg_stretch,
        upper_arm_twist := (((Json.obj fields).get "upperArmTwist").bind
          Json.asNum?).getD humanoid.upper_arm_twist,
        lower_arm_twist := (((Json.obj fields).get "lowerArmTwist").bind
          Json.asNum?).getD humanoid.lower_arm_twist,
        upper_leg_twist := (((Json.obj fields).get "upperLegTwist").bind
          Json.asNum?).getD humanoid.upper_leg_twist,
        lower_leg_twist := (((Json.obj fields).get "lowerLegTwist").bind
          Json.asNum?).getD humanoid.lower_leg_twist,
        feet_spacing := (((Json.obj fields).get "feetSpacing").bind
          Json.asNum?).getD humanoid.feet_spacing,
        has_translation_dof := (((Json.obj fields).get
          "hasTranslationDoF").bind
          Json.asBool?).getD humanoid.has_translation_dof } := by
  simp only [migrate_vrm0_humanoid]
  rw [(humApply_eq_getD _ _).1]
  rw [(humApply_eq_getD _ _).2.1]
  rw [(humApply_eq_getD _ _).2.2.1]
  rw [(humApply_eq_getD _ _).2.2.2.1]
  rw [(humApply_eq_getD _ _).2.2.2.2.1]
  rw [(humApply_eq_getD _ _).2.2.2.2.2.1]
  rw [(humApply_eq_getD _ _).2.2.2.2.2.2.1]
  rw [(humApply_eq_getD _ _).2.2.2.2.2.2.2]

/-- A freshly added mesh-annotation entry (`mesh_annotations.add()`)
followed by the per-entry field population of the source loop. -/
def migrateMeshAnnotationEntry (bd : BlendData) (d : Json) :
    MeshAnnotationRec :=
  let ma : MeshAnnotationRec := ⟨"", ""⟩
  match d with
  | Json.obj fields =>
    let dd := Json.obj fields
    let ma := match (dd.get "mesh").bind Json.asStr? with
      | some m =>
        match bd.meshes.lookup m with
        | some _ => { ma with mesh := m }
        | none => ma
      | none => ma
    let ma := match (dd.get "firstPersonFlag").bind Json.asStr? with
      | some f => { ma with first_person_flag := f }
      | none => ma
    ma
  | _ => ma

/-- The per-record population of one look-at curve definition. -/
def migrateLookAt (la : LookAt) (look_at_dict : Option Json) : LookAt :=
  match look_at_dict with
  | some (Json.obj fields) =>
    let d := Json.obj fields
    let la := match vrm_json_curve_to_list (d.get "curve") with
      | some c => { la with curve := c } | none => la
    let la := match (d.get "xRange").bind Json.asNum? with
      | some v => { la with x_range := v } | none => la
    let la := match (d.get "yRange").bind Json.asNum? with
      | some v => { la with y_range := v } | none => la
    la
  | _ => la

/-- `migrate_vrm0_first_person`: no-op unless the input is a dict; the
bone-offset vector is reordered `(x, y, z) ↦ (x, z, y)` ("Axis
confusing" in the source); mesh annotations are appended one output
entry per input element. -/
def migrate_vrm0_first_person (first_person : FirstPerson)
    (first_person_dict : Option Json) (bd : BlendData) : FirstPerson :=
  match first_person_dict with
  | some (Json.obj fields) =>
    let d := Json.obj fields
    let fp := first_person
    let fp := match (d.get "firstPersonBone").bind Json.asStr? with
      | some s => { fp with first_person_bone := ⟨s⟩ } | none => fp
    let fp := match vrm_json_vector3_to_tuple (d.get "firstPersonBoneOffset") with
      | some (x, y, z) => { fp with first_person_bone_offset := (x, z, y) }
      | none => fp
    let fp := match (d.get "meshAnnotations").bind Json.iterElems with
      | some ds => { fp with mesh_annotations :=
          fp.mesh_annotations ++ ds.map (migrateMeshAnnotationEntry bd) }
      | none => fp
    let fp := match d.get "lookAtTypeName" with
      | some (Json.str s) =>
        if s = "Bone" ∨ s = "BlendShape" then
          { fp with look_at_type_name := s }
        else fp
      | _ => fp
    let lahi := migrateLookAt fp.look_at_horizontal_inner
      (d.get "lookAtHorizontalInner")
    let fp := { fp with look_at_horizontal_inner := lahi }
    let laho := migrateLookAt fp.look_at_horizontal_outer
      (d.get "lookAtHorizontalOuter")
    let fp := { fp with look_at_horizontal_outer := laho }
    let lavd := migrateLookAt fp.look_at_vertical_down
      (d.get "lookAtVerticalDown")
    let fp := { fp with look_at_vertical_down := lavd }
    let lavu := migrateLookAt fp.look_at_vertical_up
      (d.get "lookAtVerticalUp")
    let fp := { fp with look_at_vertical_up := lavu }
    fp
  | _ => first_person

/-- A freshly added blend-shape bind (`binds.add()`) followed by the
per-entry field population of the source loop. -/
def migrateBind (bd : BlendData) (bind_dict : Json) : MorphBind :=
  let b : MorphBind := ⟨"", "", 0⟩
  match bind_dict with
  | Json.obj fields =>
    let d := Json.obj fields
    let b := match (d.get "mesh").bind Json.asStr? with
      | some m =>
        match bd.meshes.lookup m with
        | some key_blocks =>
          let b := { b with mesh := m }
          match (d.get "index").bind Json.asStr? with
          | some idx =>
            if key_blocks.contains idx then { b with index := idx } else b
          | none => b
        | none => b
      | none => b
    let b := match (d.get "weight").bind Json.asNum? with
      | some w => { b with weight := w } | none => b
    b
  | _ => b

/-- A freshly added material-value bind (`material_values.add()`)
followed by the per-entry field population of the source loop: every
element of an iterable `targetValue` yields one output entry, non-numbers
stored as 0. -/
def migrateMaterialValue (bd : BlendData) (material_value_dict : Json) :
    MaterialValue :=
  let mv : MaterialValue := ⟨"", "", []⟩
  match material_value_dict with
  | Json.obj fields =>
    let d := Json.obj fields
    let mv := match (d.get "materialName").bind Json.asStr? with
      | some m => if bd.materials.contains m then { mv with material := m }
        else mv
      | none => mv
    let mv := match (d.get "propertyName").bind Json.asStr? with
      | some p => { mv with property_name := p } | none => mv
    let mv := match (d.get "targetValue").bind Json.iterElems with
      | some vs =>
        { mv with target_value := vs.map (fun v => (Json.asNum? v).getD 0) }
      | none => mv
    mv
  | _ => mv

/-- A freshly added blend-shape group (`blend_shape_groups.add()`)
followed by the per-entry field population of the source loop.  `name`
and `presetName` are assigned whenever present and not `None`, with no
type check. -/
def migrateBlendShapeGroup (bd : BlendData) (blend_shape_group_dict : Json) :
    BlendShapeGroup :=
  let g : BlendShapeGroup := ⟨Json.str "", Json.str "", [], [], false⟩
  match blend_shape_group_dict with
  | Json.obj fields =>
    let d := Json.obj fields
    let g := match d.get "name" with
      | some v => if v = Json.null then g else { g with name := v }
      | none => g
    let g := match d.get "presetName" with
      | some v => if v = Json.null then g else { g with preset_name := v }
      | none => g
    let g := match (d.get "binds").bind Json.iterElems with
      | some ds => { g with binds := ds.map (migrateBind bd) }
      | none => g
    let g := match (d.get "materialValues").bind Json.iterElems with
      | some ds => { g with material_values := ds.map (migrateMaterialValue bd) }
      | none => g
    let g := match (d.get "isBinary").bind Json.asBool? with
      | some v => { g with is_binary := v }
      | none => g
    g
  | _ => g

/-- `migrate_vrm0_blend_shape_groups`: no-op unless the input is
iterable; each element appends exactly one group record. -/
def migrate_vrm0_blend_shape_groups (blend_shape_groups : List BlendShapeGroup)
    (blend_shape_group_dicts : Option Json) (bd : BlendData) :
    List BlendShapeGroup :=
  match blend_shape_group_dicts.bind Json.iterElems with
  | some ds => blend_shape_groups ++ ds.map (migrateBlendShapeGroup bd)
  | none => blend_shape_groups

/-! ### The graph reconstructor (`migrate_vrm0_secondary_animation`) -/

/-- The collider-marker scan filter of the source (`migration.py` lines
280–287): children that are sphere-displayed empties, bone-parented to a
bone present on the rig. -/
def validColliderObjects (armature : Armature) : List ChildObject :=
  armature.children.filter (fun child =>
    child.type = "EMPTY" && child.empty_display_type = "SPHERE" &&
      child.parent_type = "BONE" && armature.bones.contains child.parent_bone)

/-- One step of the Python dict-of-lists grouping by `parent_bone`: an
already-present key gets the object appended to its list, a new key is
appended at the end. -/
def groupStep (acc : List (String × List ChildObject)) (obj : ChildObject) :
    List (String × List ChildObject) :=
  if acc.any (fun p => p.1 = obj.parent_bone) then
    acc.map (fun p =>
      if p.1 = obj.parent_bone then (p.1, p.2 ++ [obj]) else p)
  else acc ++ [(obj.parent_bone, [obj])]

/-- Grouping by `parent_bone` into a Python dict of lists: first
occurrence fixes the key position, objects are appended in scan order. -/
def groupByParentBone (objs : List ChildObject) :
    List (String × List ChildObject) :=
  objs.foldl groupStep []

/-- One reconstructed collider group before `refresh`: fresh UUID, node
set to the bone name, one collider per marker, default collection key. -/
def buildColliderGroup (n : Nat) (bone_name : String)
    (collider_objects : List ChildObject) : ColliderGroup :=
  { uuid := mkUuid n, node := ⟨bone_name⟩,
    colliders := collider_objects.map (fun o => ⟨o.name⟩), name := "" }

/-- The default state of a freshly added bone group
(`bone_groups.add()`). -/
def freshBoneGroup : BoneGroup := ⟨"", 0, 0, (0, 0, 0), 0, ⟨""⟩, 0, [], []⟩

/-- The `comment` step of the bone-group population loop. -/
def bgApplyComment (d : Json) (bg : BoneGroup) : BoneGroup :=
  match (d.get "comment").bind Json.asStr? with
  | some v => { bg with comment := v } | none => bg

/-- The `stiffiness` step of the bone-group population loop. -/
def bgApplyStiffiness (d : Json) (bg : BoneGroup) : BoneGroup :=
  match (d.get "stiffiness").bind Json.asNum? with
  | some v => { bg with stiffiness := v } | none => bg

/-- The `gravityPower` step of the bone-group population loop. -/
def bgApplyGravityPower (d : Json) (bg : BoneGroup) : BoneGroup :=
  match (d.get "gravityPower").bind Json.asNum? with
  | some v => { bg with gravity_power := v } | none => bg

/-- The `gravityDir` step of the bone-group population loop ("Axis
confusing" reorder `(x, y, z) ↦ (x, z, y)` as in the source). -/
def bgApplyGravityDir (d : Json) (bg : BoneGroup) : BoneGroup :=
  match vrm_json_vector3_to_tuple (d.get "gravityDir") with
  | some (x, y, z) => { bg with gravity_dir := (x, z, y) }
  | none => bg

/-- The `dragForce` step of the bone-group population loop. -/
def bgApplyDragForce (d : Json) (bg : BoneGroup) : BoneGroup :=
  match (d.get "dragForce").bind Json.asNum? with
  | some v => { bg with drag_force := v } | none => bg

/-- The `center` step of the bone-group population loop. -/
def bgApplyCenter (d : Json) (bg : BoneGroup) : BoneGroup :=
  match (d.get "center").bind Json.asStr? with
  | some v => { bg with center := ⟨v⟩ } | none => bg

/-- The `hitRadius` step of the bone-group population loop. -/
def bgApplyHitRadius (d : Json) (bg : BoneGroup) : BoneGroup :=
  match (d.get "hitRadius").bind Json.asNum? with
  | some v => { bg with hit_radius := v } | none => bg

/-- The `bones` step of the bone-group population loop: one appended
reference per element, non-strings left at the default empty value. -/
def bgApplyBones (d : Json) (bg : BoneGroup) : BoneGroup :=
  match (d.get "bones").bind Json.iterElems with
  | some bs =>
    { bg with bones := bs.map (fun b => ⟨(Json.asStr? b).getD ""⟩) }
  | none => bg

/-- The `colliderGroups` step of the bone-group population loop: each
string element is resolved against the node value of the collider groups
visible to the loop, the first match wins and contributes its collection
key (`name`); non-strings and unmatched names contribute nothing. -/
def bgApplyColliderGroups (collider_groups : List ColliderGroup) (d : Json)
    (bg : BoneGroup) : BoneGroup :=
  match (d.get "colliderGroups").bind Json.iterElems with
  | some names =>
    let resolved := names.filterMap (fun n =>
      match Json.asStr? n with
      | some s =>
        match collider_groups.find? (fun cg => cg.node.value = s) with
        | some cg => some (⟨cg.name⟩ : BoneRef)
        | none => none
      | none => none)
    { bg with collider_groups := resolved }
  | none => bg

/-- A freshly added bone group (`bone_groups.add()`) followed by the
per-entry field population of the source loop (source order);
`collider_groups` holds the collider-group list visible to the
resolution loop (after the collider refresh pass). -/
def migrateBoneGroup (collider_groups : List ColliderGroup)
    (bone_group_dict : Json) : BoneGroup :=
  match bone_group_dict with
  | Json.obj fields =>
    let d := Json.obj fields
    bgApplyColliderGroups collider_groups d (bgApplyBones d
      (bgApplyHitRadius d (bgApplyCenter d (bgApplyDragForce d
        (bgApplyGravityDir d (bgApplyGravityPower d
          (bgApplyStiffiness d (bgApplyComment d freshBoneGroup))))))))
  | _ => freshBoneGroup

/-- `migrate_vrm0_secondary_animation`: scan collider markers, group them
by parent bone, append one collider group per bone (fresh UUID, colliders
in scan order), refresh every collider group, then append one bone group
per legacy entry, resolving `colliderGroups` names against the node
values of the collider-group list, and refresh every bone group.  The
UUID counter is threaded through. -/
def migrate_vrm0_secondary_animation (secondary_animation : SecondaryAnimation)
    (bone_group_dicts : Option Json) (armature : Armature) (uuidSeq : Nat) :
    SecondaryAnimation × Nat :=
  let groups := groupByParentBone (validColliderObjects armature)
  let built := groups.enum.map (fun p =>
    buildColliderGroup (uuidSeq + p.1) p.2.1 p.2.2)
  let collider_groups :=
    (secondary_animation.collider_groups ++ built).map
      (colliderGroupRefresh armature)
  let dicts := (bone_group_dicts.bind Json.iterElems).getD []
  let bone_groups :=
    (secondary_animation.bone_groups ++
        dicts.map (migrateBoneGroup collider_groups)).map
      (boneGroupRefresh armature)
  ({ collider_groups := collider_groups, bone_groups := bone_groups },
    uuidSeq + groups.length)

/-! ### The orchestrator (`migration.py` lines 372–439) -/

/-- Set the first humanoid entry whose role tag equals `role` to the bone
name `v` (the `for … break` of the legacy attribute scan). -/
def setFirstMatchingRole : List HumanBone → String → String → List HumanBone
  | [], _, _ => []
  | hb :: rest, role, v =>
    if hb.bone = role then { hb with node := ⟨v⟩ } :: rest
    else hb :: setFirstMatchingRole rest role v

/-- The legacy per-bone-role attribute scan (`migration.py` lines
394–408): traverse the role set in order, skip values that are not
non-empty strings or that were already taken by an earlier role, record
the value as taken, and write it into the first entry with that role. -/
def scanLegacyBoneProps (armature : Armature) : List String → List String →
    Humanoid → Humanoid
  | [], _, humanoid => humanoid
  | role :: rest, assigned, humanoid =>
    match armature.data_props.lookup role with
    | some (.plain (Json.str v)) =>
      if v = "" ∨ assigned.contains v then
        scanLegacyBoneProps armature rest assigned humanoid
      else
        scanLegacyBoneProps armature rest (assigned ++ [v])
          { humanoid with
            human_bones := setFirstMatchingRole humanoid.human_bones role v }
    | _ => scanLegacyBoneProps armature rest assigned humanoid

/-- `migrate_legacy_custom_properties`: version-gated on
`tuple(ext.addon_version) >= (2, 0, 1)`; below the gate it runs the meta,
blend-shape, first-person, humanoid and secondary-animation migrators and
then the legacy per-bone-role attribute scan. -/
def migrate_legacy_custom_properties (ext : Extension) (armature : Armature)
    (bd : BlendData) (uuidSeq : Nat) : Extension × Nat :=
  if versionAtLeast ext.addon_version (2, 0, 1) then (ext, uuidSeq)
  else
    let vrm0 := ext.vrm0
    let vrm0 := { vrm0 with meta := migrate_vrm0_meta vrm0.meta armature bd }
    let bsg := migrate_vrm0_blend_shape_groups vrm0.blend_shape_groups
      (read_textblock_json bd armature "blendshape_group") bd
    let vrm0 := { vrm0 with blend_shape_groups := bsg }
    let fp := migrate_vrm0_first_person vrm0.first_person
      (read_textblock_json bd armature "firstPerson_params") bd
    let vrm0 := { vrm0 with first_person := fp }
    let hum := migrate_vrm0_humanoid vrm0.humanoid
      (read_textblock_json bd armature "humanoid_params")
    let vrm0 := { vrm0 with humanoid := hum }
    let (sa, uuidSeq') := migrate_vrm0_secondary_animation
      vrm0.secondary_animation
      (read_textblock_json bd armature "spring_bone") armature uuidSeq
    let vrm0 := { vrm0 with secondary_animation := sa }
    let hum2 := scanLegacyBoneProps armature allHumanBoneNames [] vrm0.humanoid
    let vrm0 := { vrm0 with humanoid := hum2 }
    ({ ext with vrm0 := vrm0 }, uuidSeq')

/-- `is_unnecessary`: the migration pass is unnecessary when the
first-person bone is set or no "head" role entry carries a bone. -/
def is_unnecessary (vrm0 : Vrm0Doc) : Bool :=
  vrm0.first_person.first_person_bone.value ≠ "" ||
    vrm0.humanoid.human_bones.all (fun hb =>
      hb.bone ≠ "head" || hb.node.value = "")

/-- `migrate(vrm0, armature)`: the orchestrator — fixup of the humanoid
role entries, refresh of both secondary-animation collections, the
first-person backfill from the "head" role, the version-gated legacy
migration, and the unconditional recomputation of the bone-name cache. -/
def migrate (ext : Extension) (armature : Armature) (bd : BlendData)
    (uuidSeq : Nat) : Extension × Nat :=
  let vrm0 := ext.vrm0
  let vrm0 := { vrm0 with humanoid := fixup_human_bones vrm0.humanoid }
  let sa := vrm0.secondary_animation
  let sa :=
    { sa with
      collider_groups := sa.collider_groups.map (colliderGroupRefresh armature),
      bone_groups := sa.bone_groups.map (boneGroupRefresh armature) }
  let vrm0 := { vrm0 with secondary_animation := sa }
  let vrm0 :=
    if vrm0.first_person.first_person_bone.value = "" then
      match vrm0.humanoid.human_bones.find? (fun hb => hb.bone = "head") with
      | some hb =>
        { vrm0 with first_person :=
            { vrm0.first_person with first_person_bone := ⟨hb.node.value⟩ } }
      | none => vrm0
    else vrm0
  let (ext', uuidSeq') :=
    migrate_legacy_custom_properties { ext with vrm0 := vrm0 } armature bd
      uuidSeq
  let hum := { ext'.vrm0.humanoid with last_bone_names := [] }
  let hum := check_last_bone_names_and_update armature hum
  ({ ext' with vrm0 := { ext'.vrm0 with humanoid := hum } }, uuidSeq')

/-! ### Convenience initial states for concrete scenarios -/

/-- A meta record with every field empty. -/
def emptyMeta : Meta := ⟨"", "", "", "", "", "", "", "", "", "", "", "", ""⟩

/-- A look-at record with empty curve and zero ranges. -/
def emptyLookAt : LookAt := ⟨[], 0, 0⟩

/-- A first-person record with empty references. -/
def emptyFirstPerson : FirstPerson :=
  ⟨⟨""⟩, (0, 0, 0), [], "Bone", emptyLookAt, emptyLookAt, emptyLookAt,
    emptyLookAt⟩

/-- A humanoid record with no role entries and zeroed parameters. -/
def emptyHumanoid : Humanoid := ⟨[], 0, 0, 0, 0, 0, 0, 0, false, []⟩

/-- A secondary-animation record with no groups. -/
def emptySecondaryAnimation : SecondaryAnimation := ⟨[], []⟩

/-- A normalized document with everything empty. -/
def emptyVrm0Doc : Vrm0Doc :=
  ⟨emptyMeta, emptyHumanoid, emptyFirstPerson, [], emptySecondaryAnimation⟩

/-- An empty entity store. -/
def emptyBlendData : BlendData := ⟨[], [], [], []⟩

/-! ### Shared lemmas -/

/-- The version gate of `migrate_legacy_custom_properties` short-circuits
above the threshold. -/
theorem legacy_gate_skip (ext : Extension) (armature : Armature)
    (bd : BlendData) (n : Nat)
    (h : versionAtLeast ext.addon_version (2, 0, 1) = true) :
    migrate_legacy_custom_properties ext armature bd n = (ext, n) := by
  unfold migrate_legacy_custom_properties
  simp [h]

/-! ### C1 -/

/-- C1: for every rig whose stored `addon_version` is `>= (2, 0, 1)`
(Python tuple comparison), the version-gated legacy migration — meta,
blend-shape groups, first-person, humanoid, secondary-animation and the
legacy per-bone-role attribute scan — returns the extension (and the
fresh-identifier counter) unchanged: the gated entry point performs none
of those steps. -/
theorem gated_migration_noop_when_up_to_date (ext : Extension)
    (armature : Armature) (bd : BlendData) (n : Nat)
    (h : versionAtLeast ext.addon_version (2, 0, 1) = true) :
    migrate_legacy_custom_properties ext armature bd n = (ext, n) :=
  legacy_gate_skip ext armature bd n h

/-- A rig carrying arbitrary legacy attachments, used to witness the
version gate. -/
def gateWitnessArmature : Armature :=
  { props := [("blendshape_group", .plain (Json.str "t")),
      ("humanoid_params", .plain (Json.str "t"))],
    data_props := [("head", .plain (Json.str "Head"))],
    bones := ["Head"],
    children := [⟨"EMPTY", "SPHERE", "BONE", "Head", "marker"⟩],
    data_name := "Armature" }

/-- A store carrying a legacy text attachment named `t`. -/
def gateWitnessBlendData : BlendData :=
  { texts := [("t", ⟨["\x7b\"armStretch\": 2\x7d"]⟩)],
    meshes := [], materials := [], images := [] }

/-- Witness for C1 at `addon_version = (2, 0, 1)` with legacy attachments
present. -/
theorem gated_migration_noop_when_up_to_date_witness :
    versionAtLeast ((2, 0, 1) : Int × Int × Int) (2, 0, 1) = true ∧
      migrate_legacy_custom_properties ⟨(2, 0, 1), emptyVrm0Doc⟩
        gateWitnessArmature gateWitnessBlendData 0 =
        (⟨(2, 0, 1), emptyVrm0Doc⟩, 0) :=
  ⟨by decide,
    gated_migration_noop_when_up_to_date ⟨(2, 0, 1), emptyVrm0Doc⟩
      gateWitnessArmature gateWitnessBlendData 0 (by decide)⟩

/-! ### C7 -/

/-- C7: the legacy data reader returns the parsed JSON value of the
designated text attachment's concatenated line content (key order of
nested mappings is preserved by the ordered `Json.obj` representation the
parser builds), and returns absent (`none`) when the attribute is
missing, is not a `Text` pointer or string, names a non-existent
attachment, or — through `parseJson` — when the content is malformed;
no case raises. -/
theorem read_textblock_json_contract (bd : BlendData) (armature : Armature)
    (key : String) :
    (armature.props.lookup key = none →
      read_textblock_json bd armature key = none)
    ∧ (∀ j, armature.props.lookup key = some (.plain j) →
        (∀ s, j ≠ Json.str s) →
        read_textblock_json bd armature key = none)
    ∧ (∀ s, armature.props.lookup key = some (.plain (Json.str s)) →
        bd.texts.lookup s = none →
        read_textblock_json bd armature key = none)
    ∧ (∀ text, armature.props.lookup key = some (.textRef text) →
        read_textblock_json bd armature key =
          parseJson (String.join text.lines))
    ∧ (∀ s text, armature.props.lookup key = some (.plain (Json.str s)) →
        bd.texts.lookup s = some text →
        read_textblock_json bd armature key =
          parseJson (String.join text.lines)) := by
  refine ⟨?_, ?_, ?_, ?_, ?_⟩
  · intro h
    unfold read_textblock_json
    rw [h]
  · intro j h hne
    unfold read_textblock_json
    rw [h]
    cases j with
    | str s => exact absurd rfl (hne s)
    | null => rfl
    | bool b => rfl
    | num q => rfl
    | arr xs => rfl
    | obj fields => rfl
  · intro s h ht
    unfold read_textblock_json
    rw [h]
    simp [ht]
  · intro text h
    unfold read_textblock_json
    rw [h]
  · intro s text h ht
    unfold read_textblock_json
    rw [h]
    simp [ht]

/-- A rig used to witness the reader contract: a good attachment
reference, a non-string attribute and a dangling attachment name. -/
def readerWitnessArmature : Armature :=
  { props := [("k", .plain (Json.str "t")),
      ("bad", .plain (Json.num 1)),
      ("dangling", .plain (Json.str "zzz"))],
    data_props := [], bones := [], children := [], data_name := "A" }

/-- A store with one two-line text attachment whose JSON object lists key
`"b"` before key `"a"`. -/
def readerWitnessBlendData : BlendData :=
  { texts := [("t", ⟨["\x7b\"b\": 1,", "\"a\": 2\x7d"]⟩)],
    meshes := [], materials := [], images := [] }

/-- Witness for C7: the reader parses the concatenated attachment and
preserves the textual key order (`b` before `a`), returns absent for the
missing attribute, the non-string attribute and the dangling attachment
name. -/
theorem read_textblock_json_contract_witness :
    read_textblock_json readerWitnessBlendData readerWitnessArmature "k" =
        parseJson ("\x7b\"b\": 1," ++ "\"a\": 2\x7d")
    ∧ parseJson ("\x7b\"b\": 1," ++ "\"a\": 2\x7d") =
        some (Json.obj [("b", Json.num 1), ("a", Json.num 2)])
    ∧ read_textblock_json readerWitnessBlendData readerWitnessArmature
        "missing" = none
    ∧ read_textblock_json readerWitnessBlendData readerWitnessArmature
        "bad" = none
    ∧ read_textblock_json readerWitnessBlendData readerWitnessArmature
        "dangling" = none :=
  ⟨by
    have h := (read_textblock_json_contract readerWitnessBlendData
      readerWitnessArmature "k").2.2.2.2 "t" ⟨["\x7b\"b\": 1,", "\"a\": 2\x7d"]⟩
      (by decide) (by decide)
    simpa using h,
    by decide,
    (read_textblock_json_contract readerWitnessBlendData
      readerWitnessArmature "missing").1 (by decide),
    (read_textblock_json_contract readerWitnessBlendData
      readerWitnessArmature "bad").2.1 (Json.num 1) (by decide)
      (fun s h => Json.noConfusion h),
    (read_textblock_json_contract readerWitnessBlendData
      readerWitnessArmature "dangling").2.2.1 "zzz" (by decide) (by decide)⟩

/-! ### C10 -/

/-- C10: when a legacy `targetValue` entry is iterable (its Python
iteration yielding `vs`), every element yields exactly one output entry
in order — an element passing the numeric check (`isinstance(v, (int,
float))`, under which Python booleans read as 1/0) keeps its value, any
other element is stored as 0 — so the output vector has the same length
as the legacy iterable. -/
theorem material_value_target_vector (bd : BlendData)
    (fields : List (String × Json)) (vs : List Json)
    (h : ((Json.obj fields).get "targetValue").bind Json.iterElems = some vs) :
    (migrateMaterialValue bd (Json.obj fields)).target_value =
        vs.map (fun v => (Json.asNum? v).getD 0)
    ∧ (migrateMaterialValue bd (Json.obj fields)).target_value.length =
        vs.length
    ∧ ∀ i v, vs.get? i = some v →
        (migrateMaterialValue bd (Json.obj fields)).target_value.get? i =
          some ((Json.asNum? v).getD 0) := by
  have hmain : (migrateMaterialValue bd (Json.obj fields)).target_value =
      vs.map (fun v => (Json.asNum? v).getD 0) := by
    simp only [migrateMaterialValue]
    rw [h]
  refine ⟨hmain, ?_, ?_⟩
  · rw [hmain]; simp
  · intro i v hv
    rw [hmain]
    rw [List.get?_eq_getElem?] at hv ⊢
    simp [List.getElem?_map, hv]

/-- Witness for C10: a four-element legacy iterable (number, string,
boolean, null) yields a four-entry vector `[3, 0, 1, 0]`. -/
theorem material_value_target_vector_witness :
    (((Json.obj [("targetValue",
        Json.arr [Json.num 3, Json.str "x", Json.bool true, Json.null])]).get
          "targetValue").bind Json.iterElems =
      some [Json.num 3, Json.str "x", Json.bool true, Json.null])
    ∧ (migrateMaterialValue emptyBlendData
        (Json.obj [("targetValue",
          Json.arr [Json.num 3, Json.str "x", Json.bool true,
            Json.null])])).target_value = [3, 0, 1, 0] :=
  ⟨by decide, by
    have h := (material_value_target_vector emptyBlendData
      [("targetValue",
        Json.arr [Json.num 3, Json.str "x", Json.bool true, Json.null])]
      [Json.num 3, Json.str "x", Json.bool true, Json.null] (by decide)).1
    rw [h]
    decide⟩

/-- The steps after `gravityDir` leave `gravity_dir` unchanged. -/
theorem gravity_dir_after_steps (cgs : List ColliderGroup) (d : Json)
    (bg : BoneGroup) :
    (bgApplyColliderGroups cgs d (bgApplyBones d (bgApplyHitRadius d
      (bgApplyCenter d (bgApplyDragForce d bg))))).gravity_dir =
      bg.gravity_dir := by
  unfold bgApplyColliderGroups bgApplyBones bgApplyHitRadius bgApplyCenter
    bgApplyDragForce
  repeat' split
  all_goals rfl

/-! ### C8 -/

set_option maxHeartbeats 1600000 in
/-- C8: every 3-component legacy direction vector accepted by a field
migrator — the first-person bone offset and the spring-bone gravity
direction — is assigned reordered from `(x, y, z)` to `(x, z, y)`. -/
theorem axis_remap_x_z_y :
    (∀ (fp : FirstPerson) (fields : List (String × Json)) (bd : BlendData)
        (x y z : Rat),
      vrm_json_vector3_to_tuple
          ((Json.obj fields).get "firstPersonBoneOffset") = some (x, y, z) →
      (migrate_vrm0_first_person fp (some (Json.obj fields))
          bd).first_person_bone_offset = (x, z, y))
    ∧ (∀ (cgs : List ColliderGroup) (fields : List (String × Json))
        (x y z : Rat),
      vrm_json_vector3_to_tuple ((Json.obj fields).get "gravityDir") =
          some (x, y, z) →
      (migrateBoneGroup cgs (Json.obj fields)).gravity_dir = (x, z, y)) := by
  constructor
  · intro fp fields bd x y z h
    simp only [migrate_vrm0_first_person]
    rw [h]
    repeat' split
    all_goals simp_all
  · intro cgs fields x y z h
    simp only [migrateBoneGroup]
    rw [gravity_dir_after_steps]
    unfold bgApplyGravityDir
    rw [h]

/-- Witness for C8: the vector `(1, 2, 3)` migrates to `(1, 3, 2)` in
both axis-remapped fields. -/
theorem axis_remap_x_z_y_witness :
    vrm_json_vector3_to_tuple
        ((Json.obj [("firstPersonBoneOffset",
          Json.obj [("x", Json.num 1), ("y", Json.num 2),
            ("z", Json.num 3)])]).get "firstPersonBoneOffset") =
      some (1, 2, 3)
    ∧ (migrate_vrm0_first_person emptyFirstPerson
        (some (Json.obj [("firstPersonBoneOffset",
          Json.obj [("x", Json.num 1), ("y", Json.num 2),
            ("z", Json.num 3)])]))
        emptyBlendData).first_person_bone_offset = (1, 3, 2)
    ∧ (migrateBoneGroup []
        (Json.obj [("gravityDir",
          Json.obj [("x", Json.num 1), ("y", Json.num 2),
            ("z", Json.num 3)])])).gravity_dir = (1, 3, 2) :=
  ⟨by decide,
    axis_remap_x_z_y.1 emptyFirstPerson
      [("firstPersonBoneOffset",
        Json.obj [("x", Json.num 1), ("y", Json.num 2), ("z", Json.num 3)])]
      emptyBlendData 1 2 3 (by decide),
    axis_remap_x_z_y.2 []
      [("gravityDir",
        Json.obj [("x", Json.num 1), ("y", Json.num 2), ("z", Json.num 3)])]
      1 2 3 (by decide)⟩

/-! ### C6 -/

/-- C6 counterexample: two mismatched-type fields are *not* left at their
previous values.  A JSON boolean where a number is expected passes the
source's `isinstance(x, (int, float))` guard (Python `bool` is a subclass
of `int`) and is assigned as 1; and a blend-shape group `name` of
non-string type is assigned with no type check at all. -/
theorem type_mismatch_counterexample :
    (migrate_vrm0_humanoid emptyHumanoid
        (some (Json.obj [("armStretch", Json.bool true)]))).arm_stretch = 1
    ∧ emptyHumanoid.arm_stretch = 0
    ∧ (1 : Rat) ≠ (0 : Rat)
    ∧ (migrateBlendShapeGroup emptyBlendData
        (Json.obj [("name", Json.num 5)])).name = Json.num 5
    ∧ Json.num 5 ≠ Json.str "" := by
  refine ⟨by decide, by decide, by decide, by decide, by decide⟩

set_option maxHeartbeats 1600000 in
/-- C6 amended: for every field guarded by an `isinstance` check —
string, number or boolean under Python's runtime semantics, where a
boolean counts as a number — a value failing the guard leaves the
normalized field at its previous value, and the migrators are total (no
exception escapes).  The unguarded `name`/`presetName` assignments and
booleans-as-numbers are the exceptions forced by the counterexample. -/
theorem type_mismatch_skipped (hum : Humanoid)
    (fields : List (String × Json)) :
    (((Json.obj fields).get "armStretch").bind Json.asNum? = none →
      (migrate_vrm0_humanoid hum (some (Json.obj fields))).arm_stretch =
        hum.arm_stretch)
    ∧ (((Json.obj fields).get "legStretch").bind Json.asNum? = none →
      (migrate_vrm0_humanoid hum (some (Json.obj fields))).leg_stretch =
        hum.leg_stretch)
    ∧ (((Json.obj fields).get "upperArmTwist").bind Json.asNum? = none →
      (migrate_vrm0_humanoid hum (some (Json.obj fields))).upper_arm_twist =
        hum.upper_arm_twist)
    ∧ (((Json.obj fields).get "lowerArmTwist").bind Json.asNum? = none →
      (migrate_vrm0_humanoid hum (some (Json.obj fields))).lower_arm_twist =
        hum.lower_arm_twist)
    ∧ (((Json.obj fields).get "upperLegTwist").bind Json.asNum? = none →
      (migrate_vrm0_humanoid hum (some (Json.obj fields))).upper_leg_twist =
        hum.upper_leg_twist)
    ∧ (((Json.obj fields).get "lowerLegTwist").bind Json.asNum? = none →
      (migrate_vrm0_humanoid hum (some (Json.obj fields))).lower_leg_twist =
        hum.lower_leg_twist)
    ∧ (((Json.obj fields).get "feetSpacing").bind Json.asNum? = none →
      (migrate_vrm0_humanoid hum (some (Json.obj fields))).feet_spacing =
        hum.feet_spacing)
    ∧ (((Json.obj fields).get "hasTranslationDoF").bind Json.asBool? = none →
      (migrate_vrm0_humanoid hum
        (some (Json.obj fields))).has_translation_dof =
        hum.has_translation_dof)
    ∧ (∀ (fp : FirstPerson) (bd : BlendData),
      ((Json.obj fields).get "firstPersonBone").bind Json.asStr? = none →
      (migrate_vrm0_first_person fp (some (Json.obj fields))
        bd).first_person_bone = fp.first_person_bone)
    ∧ (∀ bd : BlendData,
      ((Json.obj fields).get "weight").bind Json.asNum? = none →
      (migrateBind bd (Json.obj fields)).weight = 0)
    ∧ (∀ bd : BlendData,
      ((Json.obj fields).get "isBinary").bind Json.asBool? = none →
      (migrateBlendShapeGroup bd (Json.obj fields)).is_binary = false) := by
  refine ⟨?_, ?_, ?_, ?_, ?_, ?_, ?_, ?_, ?_, ?_, ?_⟩
  · intro h
    rw [migrate_vrm0_humanoid_char]
    simp [h]
  · intro h
    rw [migrate_vrm0_humanoid_char]
    simp [h]
  · intro h
    rw [migrate_vrm0_humanoid_char]
    simp [h]
  · intro h
    rw [migrate_vrm0_humanoid_char]
    simp [h]
  · intro h
    rw [migrate_vrm0_humanoid_char]
    simp [h]
  · intro h
    rw [migrate_vrm0_humanoid_char]
    simp [h]
  · intro h
    rw [migrate_vrm0_humanoid_char]
    simp [h]
  · intro h
    rw [migrate_vrm0_humanoid_char]
    simp [h]
  · intro fp bd h
    simp only [migrate_vrm0_first_person]
    rw [h]
    repeat' split
    all_goals first | rfl | simp_all
  · intro bd h
    simp only [migrateBind]
    rw [h]
    repeat' split
    all_goals first | rfl | simp_all
  · intro bd h
    simp only [migrateBlendShapeGroup]
    rw [h]
    repeat' split
    all_goals first | rfl | simp_all

/-- Witness for the amended C6: a string where a number is expected, a
number where a string is expected, and numbers where booleans are
expected are all skipped, leaving previous values. -/
theorem type_mismatch_skipped_witness :
    (migrate_vrm0_humanoid emptyHumanoid
        (some (Json.obj [("armStretch", Json.str "x")]))).arm_stretch =
      emptyHumanoid.arm_stretch
    ∧ (migrate_vrm0_first_person emptyFirstPerson
        (some (Json.obj [("firstPersonBone", Json.num 1)]))
        emptyBlendData).first_person_bone = emptyFirstPerson.first_person_bone
    ∧ (migrateBind emptyBlendData
        (Json.obj [("weight", Json.str "w")])).weight = 0
    ∧ (migrateBlendShapeGroup emptyBlendData
        (Json.obj [("isBinary", Json.num 1)])).is_binary = false :=
  ⟨(type_mismatch_skipped emptyHumanoid
      [("armStretch", Json.str "x")]).1 (by decide),
    (type_mismatch_skipped emptyHumanoid
      [("firstPersonBone", Json.num 1)]).2.2.2.2.2.2.2.2.1 emptyFirstPerson
      emptyBlendData (by decide),
    (type_mismatch_skipped emptyHumanoid
      [("weight", Json.str "w")]).2.2.2.2.2.2.2.2.2.1 emptyBlendData
      (by decide),
    (type_mismatch_skipped emptyHumanoid
      [("isBinary", Json.num 1)]).2.2.2.2.2.2.2.2.2.2 emptyBlendData
      (by decide)⟩

/-! ### C9 -/

/-- The scan skips role `r`: its attribute is not a non-empty string, or
its value was already taken. -/
def scanSkips (armature : Armature) (assigned : List String) (r : String) :
    Prop :=
  match armature.data_props.lookup r with
  | some (.plain (Json.str v)) => v = "" ∨ assigned.contains v = true
  | _ => True

/-- One step of the scan, unfolded. -/
theorem scan_cons_eq (armature : Armature) (r : String)
    (rest assigned : List String) (hum : Humanoid) :
    scanLegacyBoneProps armature (r :: rest) assigned hum =
      match armature.data_props.lookup r with
      | some (.plain (Json.str v)) =>
        if v = "" ∨ assigned.contains v = true then
          scanLegacyBoneProps armature rest assigned hum
        else
          scanLegacyBoneProps armature rest (assigned ++ [v])
            { hum with
              human_bones := setFirstMatchingRole hum.human_bones r v }
      | _ => scanLegacyBoneProps armature rest assigned hum := rfl

/-- Roles that are all skipped contribute nothing to the scan. -/
theorem scan_skip_prefix (armature : Armature) (l : List String) :
    ∀ (rest assigned : List String) (hum : Humanoid),
    (∀ r ∈ l, scanSkips armature assigned r) →
    scanLegacyBoneProps armature (l ++ rest) assigned hum =
      scanLegacyBoneProps armature rest assigned hum := by
  induction l with
  | nil => intro rest A hum _; rfl
  | cons r l ih =>
    intro rest A hum hall
    have hr := hall r (by simp)
    have hl : ∀ x ∈ l, scanSkips armature A x := fun x hx =>
      hall x (by simp [hx])
    show scanLegacyBoneProps armature (r :: (l ++ rest)) A hum = _
    rw [scan_cons_eq]
    unfold scanSkips at hr
    cases hlk : armature.data_props.lookup r with
    | none => exact ih rest A hum hl
    | some av =>
      rw [hlk] at hr
      cases av with
      | textRef t => exact ih rest A hum hl
      | plain j =>
        cases j with
        | str v =>
          show (if v = "" ∨ A.contains v = true then
              scanLegacyBoneProps armature (l ++ rest) A hum
            else
              scanLegacyBoneProps armature (l ++ rest) (A ++ [v])
                { hum with
                  human_bones := setFirstMatchingRole hum.human_bones r v }) =
            scanLegacyBoneProps armature rest A hum
          rw [if_pos hr]
          exact ih rest A hum hl
        | null => exact ih rest A hum hl
        | bool b => exact ih rest A hum hl
        | num q => exact ih rest A hum hl
        | arr xs => exact ih rest A hum hl
        | obj fs => exact ih rest A hum hl

/-- A role whose attribute is a fresh non-empty string writes the bone
into the first entry with that role and records the value as taken. -/
theorem scan_write_step (armature : Armature) (r : String)
    (rest assigned : List String) (hum : Humanoid) (v : String)
    (hlk : armature.data_props.lookup r = some (.plain (Json.str v)))
    (hv : v ≠ "") (hA : assigned.contains v = false) :
    scanLegacyBoneProps armature (r :: rest) assigned hum =
      scanLegacyBoneProps armature rest (assigned ++ [v])
        { hum with
          human_bones := setFirstMatchingRole hum.human_bones r v } := by
  rw [scan_cons_eq, hlk]
  show (if v = "" ∨ assigned.contains v = true then
      scanLegacyBoneProps armature rest assigned hum
    else
      scanLegacyBoneProps armature rest (assigned ++ [v])
        { hum with
          human_bones := setFirstMatchingRole hum.human_bones r v }) = _
  rw [if_neg (fun hor => hor.elim hv (fun hc => by
    rw [hA] at hc
    exact Bool.noConfusion hc))]

/-- A role whose attribute names an already-taken bone is skipped. -/
theorem scan_skip_taken (armature : Armature) (r : String)
    (rest assigned : List String) (hum : Humanoid) (v : String)
    (hlk : armature.data_props.lookup r = some (.plain (Json.str v)))
    (hA : assigned.contains v = true) :
    scanLegacyBoneProps armature (r :: rest) assigned hum =
      scanLegacyBoneProps armature rest assigned hum := by
  rw [scan_cons_eq, hlk]
  show (if v = "" ∨ assigned.contains v = true then
      scanLegacyBoneProps armature rest assigned hum
    else
      scanLegacyBoneProps armature rest (assigned ++ [v])
        { hum with
          human_bones := setFirstMatchingRole hum.human_bones r v }) = _
  rw [if_pos (Or.inr hA)]

/-- C9: in the ordered traversal of the closed role set, when an earlier
role `r1` and a later role `r2` both carry the same non-empty target bone
name `v` (and no other role carries an attribute), the scan assigns `v`
to the first entry of the earlier role only: the later role is skipped
(first-writer wins on duplicate target bones), and the result is exactly
one write. -/
theorem legacy_scan_first_writer_wins (armature : Armature) (hum : Humanoid)
    (r1 r2 v : String) (l1 l2 l3 : List String)
    (hsplit : allHumanBoneNames = l1 ++ r1 :: l2 ++ r2 :: l3)
    (hv : v ≠ "")
    (h1 : armature.data_props.lookup r1 = some (.plain (Json.str v)))
    (h2 : armature.data_props.lookup r2 = some (.plain (Json.str v)))
    (hothers : ∀ r, r ≠ r1 → r ≠ r2 →
      armature.data_props.lookup r = none) :
    scanLegacyBoneProps armature allHumanBoneNames [] hum =
      { hum with
        human_bones := setFirstMatchingRole hum.human_bones r1 v } := by
  have hnd : allHumanBoneNames.Nodup := by decide
  rw [hsplit] at hnd
  rw [List.nodup_append] at hnd
  obtain ⟨hleft, hright, hdisj⟩ := hnd
  rw [List.nodup_append] at hleft
  obtain ⟨-, hr1l2, hdisjl1⟩ := hleft
  rw [List.nodup_cons] at hr1l2
  obtain ⟨hr1nl2, -⟩ := hr1l2
  rw [List.nodup_cons] at hright
  obtain ⟨hr2nl3, -⟩ := hright
  have skipNone : ∀ r, r ≠ r1 → r ≠ r2 → ∀ A, scanSkips armature A r := by
    intro r hne1 hne2 A
    unfold scanSkips
    rw [hothers r hne1 hne2]
    trivial
  have hskip1 : ∀ r ∈ l1, scanSkips armature [] r := by
    intro r hr
    refine skipNone r ?_ ?_ []
    · intro he
      exact hdisjl1 hr (he ▸ List.mem_cons_self r1 l2)
    · intro he
      exact hdisj (List.mem_append_left _ hr)
        (he ▸ List.mem_cons_self r2 l3)
  have hskip2 : ∀ r ∈ l2, scanSkips armature ([] ++ [v]) r := by
    intro r hr
    refine skipNone r ?_ ?_ ([] ++ [v])
    · intro he
      exact hr1nl2 (he ▸ hr)
    · intro he
      exact hdisj (List.mem_append_right _ (List.mem_cons_of_mem _ hr))
        (he ▸ List.mem_cons_self r2 l3)
  have hskip3 : ∀ r ∈ l3, scanSkips armature ([] ++ [v]) r := by
    intro r hr
    refine skipNone r ?_ ?_ ([] ++ [v])
    · intro he
      exact hdisj (List.mem_append_right _ (List.mem_cons_self r1 l2))
        (List.mem_cons_of_mem _ (he ▸ hr))
    · intro he
      exact hr2nl3 (he ▸ hr)
  rw [hsplit, List.append_assoc, scan_skip_prefix armature l1 _ [] hum hskip1,
    List.cons_append,
    scan_write_step armature r1 _ [] hum v h1 hv rfl,
    scan_skip_prefix armature l2 _ ([] ++ [v]) _ hskip2,
    scan_skip_taken armature r2 _ ([] ++ [v]) _ v h2 (by simp)]
  have hlast := scan_skip_prefix armature l3 [] ([] ++ [v])
    { hum with human_bones := setFirstMatchingRole hum.human_bones r1 v }
    hskip3
  rw [List.append_nil] at hlast
  rw [hlast]
  rfl

/-- A rig whose legacy attributes map both the `hips` and the
`leftUpperLeg` roles to the same bone name `B`. -/
def scanWitnessArmature : Armature :=
  { props := [],
    data_props := [("hips", .plain (Json.str "B")),
      ("leftUpperLeg", .plain (Json.str "B"))],
    bones := ["B"], children := [], data_name := "A" }

/-- A humanoid with entries for the two roles of the scan witness. -/
def scanWitnessHumanoid : Humanoid :=
  ⟨[⟨"hips", ⟨""⟩⟩, ⟨"leftUpperLeg", ⟨""⟩⟩], 0, 0, 0, 0, 0, 0, 0, false, []⟩

/-- Witness for C9: `hips` precedes `leftUpperLeg` in the role
traversal; both name bone `B`, the earlier role takes it and the later
role's entry stays unassigned. -/
theorem legacy_scan_first_writer_wins_witness :
    allHumanBoneNames =
      [] ++ "hips" :: [] ++ "leftUpperLeg" :: allHumanBoneNames.drop 2
    ∧ scanLegacyBoneProps scanWitnessArmature allHumanBoneNames []
        scanWitnessHumanoid =
      { scanWitnessHumanoid with
        human_bones := setFirstMatchingRole scanWitnessHumanoid.human_bones
          "hips" "B" }
    ∧ setFirstMatchingRole scanWitnessHumanoid.human_bones "hips" "B" =
        [⟨"hips", ⟨"B"⟩⟩, ⟨"leftUpperLeg", ⟨""⟩⟩] :=
  ⟨by decide,
    legacy_scan_first_writer_wins scanWitnessArmature scanWitnessHumanoid
      "hips" "leftUpperLeg" "B" [] [] (allHumanBoneNames.drop 2)
      (by decide) (by decide) (by decide) (by decide)
      (fun r hn1 hn2 => by
        have hb1 : (r == "hips") = false := by simp [hn1]
        have hb2 : (r == "leftUpperLeg") = false := by simp [hn2]
        simp [scanWitnessArmature, List.lookup, hb1, hb2]),
    by decide⟩

/-! ### C3 -/

/-- The keys of one grouping step: unchanged for a known key, the new
key appended otherwise. -/
theorem groupStep_keys (acc : List (String × List ChildObject))
    (obj : ChildObject) :
    (groupStep acc obj).map Prod.fst =
      if acc.any (fun p => p.1 = obj.parent_bone) then acc.map Prod.fst
      else acc.map Prod.fst ++ [obj.parent_bone] := by
  unfold groupStep
  split
  · rw [List.map_map]
    refine List.map_congr_left ?_
    intro p _
    by_cases hp : p.1 = obj.parent_bone <;> simp [hp]
  · simp

/-- Membership in the grouping keys: a key of the fold is an
accumulator key or the parent bone of a scanned object. -/
theorem mem_keys_groupFold (objs : List ChildObject) :
    ∀ (acc : List (String × List ChildObject)) (k : String),
    (k ∈ (objs.foldl groupStep acc).map Prod.fst ↔
      k ∈ acc.map Prod.fst ∨ ∃ o ∈ objs, o.parent_bone = k) := by
  induction objs with
  | nil => intro acc k; simp
  | cons o objs ih =>
    intro acc k
    show k ∈ (objs.foldl groupStep (groupStep acc o)).map Prod.fst ↔ _
    rw [ih]
    rw [groupStep_keys]
    split
    · rename_i hany
      have hmem : o.parent_bone ∈ acc.map Prod.fst := by
        simp only [List.any_eq_true, decide_eq_true_eq] at hany
        obtain ⟨p, hp, hp1⟩ := hany
        exact hp1 ▸ List.mem_map_of_mem Prod.fst hp
      have himp : o.parent_bone = k → k ∈ acc.map Prod.fst :=
        fun he => he ▸ hmem
      simp only [List.mem_cons]
      aesop
    · simp only [List.mem_append, List.mem_singleton, List.mem_cons]
      aesop

/-- The grouping keys are distinct. -/
theorem nodup_keys_groupFold (objs : List ChildObject) :
    ∀ acc : List (String × List ChildObject),
    (acc.map Prod.fst).Nodup → ((objs.foldl groupStep acc).map Prod.fst).Nodup := by
  induction objs with
  | nil => intro acc h; exact h
  | cons o objs ih =>
    intro acc h
    refine ih (groupStep acc o) ?_
    rw [groupStep_keys]
    split
    · exact h
    · rename_i hany
      rw [List.nodup_append]
      refine ⟨h, List.nodup_singleton _, ?_⟩
      intro a ha hb
      rw [List.mem_singleton] at hb
      subst hb
      simp only [List.any_eq_true, decide_eq_true_eq] at hany
      rcases List.mem_map.1 ha with ⟨p, hp, hp1⟩
      exact hany ⟨p, hp, hp1⟩

/-- The steps before `colliderGroups` leave `collider_groups`
unchanged. -/
theorem collider_groups_before_steps (d : Json) (bg : BoneGroup) :
    (bgApplyBones d (bgApplyHitRadius d (bgApplyCenter d (bgApplyDragForce d
      (bgApplyGravityDir d (bgApplyGravityPower d (bgApplyStiffiness d
        (bgApplyComment d bg)))))))).collider_groups =
      bg.collider_groups := by
  unfold bgApplyBones bgApplyHitRadius bgApplyCenter bgApplyDragForce
    bgApplyGravityDir bgApplyGravityPower bgApplyStiffiness bgApplyComment
  repeat' split
  all_goals rfl

/-- A valid collider marker's parent bone is on the rig. -/
theorem valid_marker_bone_present (armature : Armature) (o : ChildObject)
    (h : o ∈ validColliderObjects armature) :
    armature.bones.contains o.parent_bone = true := by
  unfold validColliderObjects at h
  rw [List.mem_filter] at h
  have := h.2
  simp only [Bool.and_eq_true] at this
  exact this.2

/-- Every collider group reconstructed by the pass (and then refreshed)
carries its generated UUID as its collection key `name`. -/
theorem built_refreshed_name (armature : Armature) (n : Nat)
    (cg : ColliderGroup)
    (h : cg ∈ ((groupByParentBone (validColliderObjects armature)).enum.map
      (fun p => buildColliderGroup (n + p.1) p.2.1 p.2.2)).map
        (colliderGroupRefresh armature)) :
    cg.name = cg.uuid := by
  rcases List.mem_map.1 h with ⟨b, hb, rfl⟩
  rcases List.mem_map.1 hb with ⟨pr, hpr, rfl⟩
  have hmem : pr.2 ∈ groupByParentBone (validColliderObjects armature) := by
    rw [List.mem_enum_iff_get?] at hpr
    exact List.get?_mem hpr
  have hkey : pr.2.1 ∈ (groupByParentBone
      (validColliderObjects armature)).map Prod.fst :=
    List.mem_map_of_mem Prod.fst hmem
  unfold groupByParentBone at hkey
  rw [mem_keys_groupFold] at hkey
  rcases hkey with hk | ⟨o, ho, he⟩
  · simp at hk
  · have hcont : armature.bones.contains pr.2.1 = true :=
      he ▸ valid_marker_bone_present armature o ho
    unfold colliderGroupRefresh buildColliderGroup
    split
    · rfl
    · rename_i hno
      exact absurd hcont (by simpa using hno)

/-- C3: with the secondary-animation record starting from an empty
collider-group collection (the migration precondition), a legacy
bone-group entry whose `colliderGroups` list is `L` appends exactly one
bone group whose collider references are obtained by resolving each
string of `L` against the *node* (bone-reference) value of the collider
groups reconstructed in the same pass — the first group in insertion
order wins, and the appended reference holds that group's collection key
— while every reconstructed group's collection key is its generated
UUID; non-strings and strings matching no group contribute nothing (and
no error is raised: the migrator is a total function). -/
theorem bone_group_collider_resolution (armature : Armature)
    (bgs0 : List BoneGroup) (n : Nat) (L : List Json) :
    ∃ bg,
      (migrate_vrm0_secondary_animation ⟨[], bgs0⟩
        (some (Json.arr [Json.obj [("colliderGroups", Json.arr L)]]))
        armature n).1.bone_groups = bgs0 ++ [bg]
      ∧ bg.collider_groups = L.filterMap (fun nm =>
          (Json.asStr? nm).bind (fun s =>
            (((migrate_vrm0_secondary_animation ⟨[], bgs0⟩
              (some (Json.arr [Json.obj [("colliderGroups", Json.arr L)]]))
              armature n).1.collider_groups).find?
                (fun cg => cg.node.value = s)).map
              (fun cg => (⟨cg.name⟩ : BoneRef))))
      ∧ ∀ cg ∈ (migrate_vrm0_secondary_animation ⟨[], bgs0⟩
          (some (Json.arr [Json.obj [("colliderGroups", Json.arr L)]]))
          armature n).1.collider_groups, cg.name = cg.uuid := by
  simp only [migrate_vrm0_secondary_animation, Json.iterElems, Option.bind,
    Option.getD, List.nil_append, List.map_cons, List.map_nil,
    show boneGroupRefresh armature = id from rfl, List.map_id]
  refine ⟨_, rfl, ?_, ?_⟩
  · have hget : ((Json.obj [("colliderGroups", Json.arr L)]).get
        "colliderGroups").bind Json.iterElems = some L := rfl
    simp only [migrateBoneGroup]
    unfold bgApplyColliderGroups
    simp only [hget]
    refine List.filterMap_congr ?_
    intro nm _
    cases hs : Json.asStr? nm with
    | none => rfl
    | some s =>
      show (match (((groupByParentBone
            (validColliderObjects armature)).enum.map
              (fun p => buildColliderGroup (n + p.1) p.2.1 p.2.2)).map
            (colliderGroupRefresh armature)).find?
              (fun cg => cg.node.value = s) with
          | some cg => some (⟨cg.name⟩ : BoneRef)
          | none => none) =
        ((((groupByParentBone
            (validColliderObjects armature)).enum.map
              (fun p => buildColliderGroup (n + p.1) p.2.1 p.2.2)).map
            (colliderGroupRefresh armature)).find?
              (fun cg => cg.node.value = s)).map
          (fun cg => (⟨cg.name⟩ : BoneRef))
      cases hf : (((groupByParentBone
          (validColliderObjects armature)).enum.map
            (fun p => buildColliderGroup (n + p.1) p.2.1 p.2.2)).map
          (colliderGroupRefresh armature)).find?
            (fun cg => cg.node.value = s) <;> rfl
  · intro cg hcg
    exact built_refreshed_name armature n cg hcg

/-! ### C4 -/

/-- Folding markers that all share parent bone `b` into a single-entry
accumulator extends that entry in scan order. -/
theorem groupFold_single (b : String) :
    ∀ (objs pre : List ChildObject), (∀ o ∈ objs, o.parent_bone = b) →
    objs.foldl groupStep [(b, pre)] = [(b, pre ++ objs)] := by
  intro objs
  induction objs with
  | nil => intro pre _; simp
  | cons o objs ih =>
    intro pre hall
    have ho : o.parent_bone = b := hall o (by simp)
    have hstep : groupStep [(b, pre)] o = [(b, pre ++ [o])] := by
      unfold groupStep
      rw [if_pos (by simp [ho])]
      simp [ho]
    show List.foldl groupStep (groupStep [(b, pre)] o) objs = _
    rw [hstep, ih (pre ++ [o]) (fun x hx => hall x (by simp [hx]))]
    simp

/-- C4: with an empty starting collider-group collection, (i) when all
valid collider markers share one parent bone `b`, the pass produces
exactly one collider group — node set to `b`, a fresh generated
identifier (also its collection key after refresh), and one collider per
marker in scan order; (ii) markers spread over exactly two distinct
parent bones produce exactly two collider groups. -/
theorem collider_reconstruction (armature : Armature) (bgs0 : List BoneGroup)
    (dicts : Option Json) (n : Nat) :
    (∀ b, validColliderObjects armature ≠ [] →
      (∀ o ∈ validColliderObjects armature, o.parent_bone = b) →
      (migrate_vrm0_secondary_animation ⟨[], bgs0⟩ dicts
          armature n).1.collider_groups =
        [{ uuid := mkUuid n, node := ⟨b⟩,
           colliders := (validColliderObjects armature).map
             (fun o => (⟨o.name⟩ : Collider)),
           name := mkUuid n }])
    ∧ (∀ b1 b2, b1 ≠ b2 →
      (∀ o ∈ validColliderObjects armature,
        o.parent_bone = b1 ∨ o.parent_bone = b2) →
      (∃ o ∈ validColliderObjects armature, o.parent_bone = b1) →
      (∃ o ∈ validColliderObjects armature, o.parent_bone = b2) →
      (migrate_vrm0_secondary_animation ⟨[], bgs0⟩ dicts
          armature n).1.collider_groups.length = 2) := by
  constructor
  · intro b hne hall
    have hgroups : groupByParentBone (validColliderObjects armature) =
        [(b, validColliderObjects armature)] := by
      unfold groupByParentBone
      cases hv : validColliderObjects armature with
      | nil => exact absurd hv hne
      | cons m rest =>
        have hm : m.parent_bone = b := hall m (by rw [hv]; simp)
        have hstep : groupStep [] m = [(b, [m])] := by
          unfold groupStep
          rw [if_neg (by simp)]
          simp [hm]
        show List.foldl groupStep (groupStep [] m) rest = _
        rw [hstep, groupFold_single b rest [m] (fun x hx =>
          hall x (by rw [hv]; simp [hx]))]
        simp
    have hcontb : armature.bones.contains b = true := by
      cases hv : validColliderObjects armature with
      | nil => exact absurd hv hne
      | cons m rest =>
        have hm : m.parent_bone = b := hall m (by rw [hv]; simp)
        exact hm ▸ valid_marker_bone_present armature m (by rw [hv]; simp)
    simp only [migrate_vrm0_secondary_animation, hgroups]
    simp [colliderGroupRefresh, buildColliderGroup]
    intro hnb
    exact absurd (by simpa using hcontb) hnb
  · intro b1 b2 h12 hall hex1 hex2
    have hmem : ∀ k, k ∈ (groupByParentBone
        (validColliderObjects armature)).map Prod.fst ↔
        (k = b1 ∨ k = b2) := by
      intro k
      unfold groupByParentBone
      rw [mem_keys_groupFold]
      simp only [List.map_nil, List.not_mem_nil, false_or]
      constructor
      · rintro ⟨o, ho, he⟩
        rcases hall o ho with h | h
        · exact Or.inl (he ▸ h.symm ▸ rfl)
        · exact Or.inr (he ▸ h.symm ▸ rfl)
      · rintro (rfl | rfl)
        · rcases hex1 with ⟨o, ho, he⟩
          exact ⟨o, ho, he⟩
        · rcases hex2 with ⟨o, ho, he⟩
          exact ⟨o, ho, he⟩
    have hnd : ((groupByParentBone
        (validColliderObjects armature)).map Prod.fst).Nodup := by
      unfold groupByParentBone
      exact nodup_keys_groupFold _ [] (by simp)
    have hlen : ((groupByParentBone
        (validColliderObjects armature)).map Prod.fst).length = 2 := by
      have hfs : ((groupByParentBone
          (validColliderObjects armature)).map Prod.fst).toFinset =
          ({b1, b2} : Finset String) := by
        ext k
        simp only [List.mem_toFinset, Finset.mem_insert, Finset.mem_singleton]
        exact hmem k
      have := List.toFinset_card_of_nodup hnd
      rw [hfs, Finset.card_pair h12] at this
      omega
    simp only [migrate_vrm0_secondary_animation]
    simpa using hlen

/-- A rig with two valid markers on bone `B` and one non-marker child. -/
def c4ArmatureOneBone : Armature :=
  { props := [], data_props := [], bones := ["B"],
    children := [⟨"EMPTY", "SPHERE", "BONE", "B", "m1"⟩,
      ⟨"EMPTY", "SPHERE", "BONE", "B", "m2"⟩,
      ⟨"MESH", "SPHERE", "BONE", "B", "notmarker"⟩],
    data_name := "A" }

/-- A rig with three valid markers over two distinct bones. -/
def c4ArmatureTwoBones : Armature :=
  { props := [], data_props := [], bones := ["B1", "B2"],
    children := [⟨"EMPTY", "SPHERE", "BONE", "B1", "m1"⟩,
      ⟨"EMPTY", "SPHERE", "BONE", "B2", "m2"⟩,
      ⟨"EMPTY", "SPHERE", "BONE", "B1", "m3"⟩],
    data_name := "A" }

/-- Witness for C4: two same-bone markers yield one collider group with
two colliders in scan order; markers over two bones yield two groups. -/
theorem collider_reconstruction_witness :
    validColliderObjects c4ArmatureOneBone ≠ []
    ∧ (migrate_vrm0_secondary_animation ⟨[], []⟩ none
        c4ArmatureOneBone 0).1.collider_groups =
      [{ uuid := mkUuid 0, node := ⟨"B"⟩,
         colliders := [⟨"m1"⟩, ⟨"m2"⟩], name := mkUuid 0 }]
    ∧ (migrate_vrm0_secondary_animation ⟨[], []⟩ none
        c4ArmatureTwoBones 0).1.collider_groups.length = 2 :=
  ⟨by decide,
    by
      rw [(collider_reconstruction c4ArmatureOneBone [] none 0).1 "B"
        (by decide) (by decide)]
      decide,
    (collider_reconstruction c4ArmatureTwoBones [] none 0).2 "B1" "B2"
      (by decide) (by decide) (by decide) (by decide)⟩

/-! ### C5 -/

/-- The C5 scenario rig: no legacy text attachments, one per-bone-role
custom attribute `head -> "Head"`. -/
def c5Armature : Armature :=
  { props := [], data_props := [("head", .plain (Json.str "Head"))],
    bones := ["Head"], children := [], data_name := "A" }

/-- The C5 scenario extension: `addon_version = (1, 0, 0)` over an empty
document. -/
def c5Ext : Extension := ⟨(1, 0, 0), emptyVrm0Doc⟩

/-- C5 counterexample: after ONE orchestrator run on the C5 scenario the
humanoid `head` role holds `"Head"`, but the first-person anchor is NOT
backfilled (it is still empty, not `"Head"`): the backfill step runs
before the legacy per-bone-role scan (`migration.py` lines 426–430 vs
432). -/
theorem end_to_end_single_run_counterexample :
    ((migrate c5Ext c5Armature emptyBlendData 0).1.vrm0.humanoid.human_bones.find?
        (fun hb => hb.bone = "head")) = some ⟨"head", ⟨"Head"⟩⟩
    ∧ (migrate c5Ext c5Armature emptyBlendData
        0).1.vrm0.first_person.first_person_bone.value = ""
    ∧ ("" : String) ≠ "Head" := by
  refine ⟨by decide, by decide, by decide⟩

/-- C5 amended: on the C5 scenario one run leaves `addon_version`
unchanged and sets the humanoid head role to `"Head"` while the
first-person anchor stays empty; the anchor is backfilled to `"Head"`
only by the following run. -/
theorem end_to_end_two_runs :
    (migrate c5Ext c5Armature emptyBlendData 0).1.addon_version = (1, 0, 0)
    ∧ ((migrate c5Ext c5Armature emptyBlendData
        0).1.vrm0.humanoid.human_bones.find?
          (fun hb => hb.bone = "head")) = some ⟨"head", ⟨"Head"⟩⟩
    ∧ (migrate c5Ext c5Armature emptyBlendData
        0).1.vrm0.first_person.first_person_bone.value = ""
    ∧ (migrate (migrate c5Ext c5Armature emptyBlendData 0).1 c5Armature
        emptyBlendData
        (migrate c5Ext c5Armature emptyBlendData
          0).2).1.vrm0.first_person.first_person_bone.value = "Head" := by
  refine ⟨by decide, by decide, by decide, by decide⟩

/-! ### C2 -/

/-- The C2 counterexample rig: one collider marker on bone `B`. -/
def c2Armature : Armature :=
  { props := [], data_props := [], bones := ["B"],
    children := [⟨"EMPTY", "SPHERE", "BONE", "B", "m"⟩], data_name := "A" }

/-- C2 counterexample: below the version gate the orchestrator is not
idempotent — the second run re-runs the scene scan and appends a second
collider group, so the document after two runs differs from the document
after one. -/
theorem migrate_not_idempotent_counterexample :
    (migrate ⟨(1, 0, 0), emptyVrm0Doc⟩ c2Armature emptyBlendData
        0).1.vrm0.secondary_animation.collider_groups.length = 1
    ∧ (migrate (migrate ⟨(1, 0, 0), emptyVrm0Doc⟩ c2Armature emptyBlendData
          0).1 c2Armature emptyBlendData
        (migrate ⟨(1, 0, 0), emptyVrm0Doc⟩ c2Armature emptyBlendData
          0).2).1.vrm0.secondary_animation.collider_groups.length = 2
    ∧ (migrate (migrate ⟨(1, 0, 0), emptyVrm0Doc⟩ c2Armature emptyBlendData
          0).1 c2Armature emptyBlendData
        (migrate ⟨(1, 0, 0), emptyVrm0Doc⟩ c2Armature emptyBlendData
          0).2).1 ≠
      (migrate ⟨(1, 0, 0), emptyVrm0Doc⟩ c2Armature emptyBlendData 0).1 := by
  refine ⟨by decide, by decide, by decide⟩

/-- Every specification role has an entry after the fixup. -/
theorem fixup_roles_present (hum : Humanoid) :
    ∀ r ∈ allHumanBoneNames,
    ∃ hb ∈ (fixup_human_bones hum).human_bones, hb.bone = r := by
  intro r hr
  unfold fixup_human_bones
  by_cases hex : ∃ hb ∈ hum.human_bones, hb.bone = r
  · rcases hex with ⟨hb, hhb, hbe⟩
    exact ⟨hb, List.mem_append_left _ hhb, hbe⟩
  · push_neg at hex
    refine ⟨⟨r, ⟨""⟩⟩, List.mem_append_right _ ?_, rfl⟩
    refine List.mem_map.2 ⟨r, ?_, rfl⟩
    rw [List.mem_filter]
    refine ⟨hr, ?_⟩
    rw [List.all_eq_true]
    intro hb hhb
    simpa using hex hb hhb

/-- The fixup is the identity when every role already has an entry. -/
theorem fixup_id_of_present (hum : Humanoid)
    (h : ∀ r ∈ allHumanBoneNames, ∃ hb ∈ hum.human_bones, hb.bone = r) :
    fixup_human_bones hum = hum := by
  unfold fixup_human_bones
  have hnil : allHumanBoneNames.filter (fun n =>
      hum.human_bones.all (fun hb => hb.bone ≠ n)) = [] := by
    rw [List.filter_eq_nil]
    intro r hr
    rcases h r hr with ⟨hb, hhb, hbe⟩
    simp only [List.all_eq_true]
    push_neg
    exact ⟨hb, hhb, by simp [hbe]⟩
  rw [hnil]
  simp

/-- The collider-group refresh is idempotent. -/
theorem colliderGroupRefresh_idem (armature : Armature) (cg : ColliderGroup) :
    colliderGroupRefresh armature (colliderGroupRefresh armature cg) =
      colliderGroupRefresh armature cg := by
  unfold colliderGroupRefresh
  split <;> simp_all

/-- The first-person backfill of the orchestrator: copy the "head"
role's bone into the first-person anchor when the anchor is unset. -/
def backfillFirstPerson (fp : FirstPerson) (hum : Humanoid) : FirstPerson :=
  if fp.first_person_bone.value = "" then
    match hum.human_bones.find? (fun hb => hb.bone = "head") with
    | some hb => { fp with first_person_bone := ⟨hb.node.value⟩ }
    | none => fp
  else fp

/-- The unconditional cleanup part of the orchestrator (what remains of
`migrate` once the version gate short-circuits the legacy migration):
humanoid fixup, secondary-animation refresh, first-person backfill, and
the bone-name cache recomputation. -/
def gatedCleanup (ext : Extension) (armature : Armature) : Extension :=
  let hum1 := fixup_human_bones ext.vrm0.humanoid
  { ext with vrm0 :=
    { meta := ext.vrm0.meta,
      humanoid := { hum1 with last_bone_names := armature.bones },
      first_person := backfillFirstPerson ext.vrm0.first_person hum1,
      blend_shape_groups := ext.vrm0.blend_shape_groups,
      secondary_animation :=
        { collider_groups :=
            ext.vrm0.secondary_animation.collider_groups.map
              (colliderGroupRefresh armature),
          bone_groups :=
            ext.vrm0.secondary_animation.bone_groups.map
              (boneGroupRefresh armature) } } }

/-- The version gate, keyed on an explicit version/document pair. -/
theorem legacy_gate_skip_mk (version : Int × Int × Int) (v : Vrm0Doc)
    (armature : Armature) (bd : BlendData) (n : Nat)
    (h : versionAtLeast version (2, 0, 1) = true) :
    migrate_legacy_custom_properties ⟨version, v⟩ armature bd n =
      (⟨version, v⟩, n) :=
  legacy_gate_skip ⟨version, v⟩ armature bd n h

/-- Above the version gate, a `migrate` run is exactly the unconditional
cleanup and leaves the fresh-identifier counter alone. -/
theorem migrate_eq_gatedCleanup (ext : Extension) (armature : Armature)
    (bd : BlendData) (n : Nat)
    (h : versionAtLeast ext.addon_version (2, 0, 1) = true) :
    migrate ext armature bd n = (gatedCleanup ext armature, n) := by
  obtain ⟨ver, v0⟩ := ext
  unfold migrate gatedCleanup backfillFirstPerson
  dsimp only
  rw [legacy_gate_skip_mk ver _ armature bd n h]
  dsimp only
  split
  · cases hfind : (fixup_human_bones v0.humanoid).human_bones.find?
        (fun hb => hb.bone = "head") <;> rfl
  · rfl

/-- The first-person backfill is idempotent (relative to any humanoid
carrying the same role entries). -/
theorem backfillFirstPerson_idem (fp : FirstPerson) (hum hum' : Humanoid)
    (hsame : hum'.human_bones = hum.human_bones) :
    backfillFirstPerson (backfillFirstPerson fp hum) hum' =
      backfillFirstPerson fp hum := by
  unfold backfillFirstPerson
  by_cases hfp : fp.first_person_bone.value = ""
  · rw [if_pos hfp]
    cases hfind : hum.human_bones.find? (fun hb => hb.bone = "head") with
    | none =>
      rw [if_pos hfp, hsame, hfind]
    | some hb =>
      by_cases hv : hb.node.value = ""
      · rw [if_pos (by simpa using hv), hsame, hfind]
      · rw [if_neg (by simpa using hv)]
  · rw [if_neg hfp, if_neg hfp]

/-- The whole unconditional cleanup is idempotent. -/
theorem gatedCleanup_idem (ext : Extension) (armature : Armature) :
    gatedCleanup (gatedCleanup ext armature) armature =
      gatedCleanup ext armature := by
  have hfixid : fixup_human_bones
      { fixup_human_bones ext.vrm0.humanoid with
        last_bone_names := armature.bones } =
      { fixup_human_bones ext.vrm0.humanoid with
        last_bone_names := armature.bones } :=
    fixup_id_of_present _ (fun r hr => fixup_roles_present ext.vrm0.humanoid r hr)
  have hcgmap : ∀ l : List ColliderGroup,
      (l.map (colliderGroupRefresh armature)).map
        (colliderGroupRefresh armature) =
      l.map (colliderGroupRefresh armature) := by
    intro l
    rw [List.map_map]
    exact List.map_congr_left (fun cg _ => colliderGroupRefresh_idem armature cg)
  have hbgmap : ∀ l : List BoneGroup,
      l.map (boneGroupRefresh armature) = l := by
    intro l
    simp [show boneGroupRefresh armature = id from rfl]
  show Extension.mk _ _ = Extension.mk _ _
  unfold gatedCleanup
  dsimp only
  dsimp only at hfixid
  have hbf : backfillFirstPerson
      (backfillFirstPerson ext.vrm0.first_person
        (fixup_human_bones ext.vrm0.humanoid))
      { fixup_human_bones ext.vrm0.humanoid with
        last_bone_names := armature.bones } =
      backfillFirstPerson ext.vrm0.first_person
        (fixup_human_bones ext.vrm0.humanoid) :=
    backfillFirstPerson_idem _ _ _ rfl
  dsimp only at hbf
  rw [hfixid, hcgmap, hbgmap, hbgmap, hbf]

/-- C2 amended: above the version gate (`addon_version >= (2, 0, 1)`),
running the orchestrator twice yields the same normalized document (and
fresh-identifier counter) as running it once; below the gate this fails
(second runs append further records), as the counterexample shows. -/
theorem migrate_idempotent_when_up_to_date (ext : Extension)
    (armature : Armature) (bd : BlendData) (n : Nat)
    (h : versionAtLeast ext.addon_version (2, 0, 1) = true) :
    migrate (migrate ext armature bd n).1 armature bd
        (migrate ext armature bd n).2 =
      migrate ext armature bd n := by
  rw [migrate_eq_gatedCleanup ext armature bd n h]
  rw [migrate_eq_gatedCleanup (gatedCleanup ext armature) armature bd n
    (by exact h)]
  rw [gatedCleanup_idem]

/-- Witness for the amended C2, at `addon_version = (2, 0, 1)` on a rig
with a collider marker and a pre-populated document. -/
theorem migrate_idempotent_when_up_to_date_witness :
    versionAtLeast ((2, 0, 1) : Int × Int × Int) (2, 0, 1) = true
    ∧ migrate (migrate ⟨(2, 0, 1), emptyVrm0Doc⟩ c2Armature emptyBlendData
          0).1 c2Armature emptyBlendData
        (migrate ⟨(2, 0, 1), emptyVrm0Doc⟩ c2Armature emptyBlendData 0).2 =
      migrate ⟨(2, 0, 1), emptyVrm0Doc⟩ c2Armature emptyBlendData 0 :=
  ⟨by decide,
    migrate_idempotent_when_up_to_date ⟨(2, 0, 1), emptyVrm0Doc⟩ c2Armature
      emptyBlendData 0 (by decide)⟩
